import Mathlib

/-!
# ERPLY API wrapper: resource methods and bulk status reconciliation

A shallow embedding of the request methods of

* `pkg/api/addresses/addressRequests.go` (namespace `addresses`),
* `pkg/api/products/product.go` (namespace `productGo`),
* `pkg/api/products/requests.go` (namespace `products`),

together with the response shapes they decode into.

Conventions of the embedding.

* A Go slice is a `List`; the nil slice and the empty slice are both `[]`.
* A Go `error` result is an `Option GoError`; `none` is the nil error.
* A Go map that may be nil is an `Option` of a lookup function.
* `context.Context` is dropped: none of the methods reads it.
* The body of every method is a `Prog`: a program that ends with an
  `Outcome` (the pair of returned values, or a run-time panic) or makes a
  transport call and goes on with the answer. The body holds no transport;
  a `SendRequest` or `SendRequestBulk` of the source is a `Prog.call` node.
* The method itself is its body run against a transport (`Prog.run`), which
  answers and logs every call: the result is a `Run`, the calls made, in
  order, and the `Outcome`.
* What the methods call but the source tree does not contain (the transport
  of `common.Client`, `common.IsJSONResponseOK`, `ErrorCode.String`, the
  constructors of the `errors` package, `encoding/json`) is either a field of
  `Client` / `Env`, an argument of the method, or a free constructor of
  `GoError` that records the arguments of the call.
-/

namespace Erply

/-! ## Data model -/

/-- Status: `common.Status`, the per-call outcome block of every response.
Its declaration is outside the source tree; the three fields are the ones the
methods read (`ErrorCode`, `Request`, `ResponseStatus`). -/
structure Status where
  ErrorCode : Int
  Request : String
  ResponseStatus : String
deriving DecidableEq, Repr

/-- StatusBulk: `sharedCommon.StatusBulk`, the status block of one bulk item.
It embeds `Status` (the methods read `item.Status.Status` and the promoted
fields `item.Status.ErrorCode`, `.Request`, `.ResponseStatus`); whatever else
it declares is `rest`. -/
structure StatusBulk (X : Type) where
  Status : Status
  rest : X

/-- Promoted field `ErrorCode` of the embedded `Status`. -/
def StatusBulk.ErrorCode {X : Type} (s : StatusBulk X) : Int := s.Status.ErrorCode

/-- Promoted field `Request` of the embedded `Status`. -/
def StatusBulk.Request {X : Type} (s : StatusBulk X) : String := s.Status.Request

/-- Promoted field `ResponseStatus` of the embedded `Status`. -/
def StatusBulk.ResponseStatus {X : Type} (s : StatusBulk X) : String := s.Status.ResponseStatus

/-- The zero value of `Status`. -/
def Status.zero : Status := { ErrorCode := 0, Request := "", ResponseStatus := "" }

/-- Error values. `external` is an error made outside these methods (by the
transport, the body reader or the JSON library), given by its `Error()` text.
The other constructors record a call of a constructor of the `errors`
package, which is outside the source tree, with the arguments of the call;
`Errorf` is the result of `fmt.Errorf`, given by its formatted text. -/
inductive GoError where
  | external (text : String)
  | ErplyError (code : String) (msg : String)
  | FromError (msg : String) (cause : GoError)
  | FromNilError (msg : String)
  | FromResponseStatus (status : Status)
  | Errorf (text : String)
deriving DecidableEq, Repr

/-- Modelled from the spec: `erro.NewErplyError(code, msg)`, whose body is
outside the source tree. An ApiError carries the error code and the message
it was built with (spec, section 7), so the call is the record of its two
arguments. -/
def NewErplyError (code msg : String) : GoError := GoError.ErplyError code msg

/-- Modelled from the spec: `erro.NewFromError(msg, err)`, whose body is
outside the source tree. The error wraps its cause under a message (spec,
section 7), so the call is the record of its two arguments; `err` may be
nil. -/
def NewFromError (msg : String) (err : Option GoError) : GoError :=
  match err with
  | some cause => GoError.FromError msg cause
  | none => GoError.FromNilError msg

/-- The call `erro.NewFromResponseStatus(&status)`, whose body is outside the
source tree: it is kept as the record of its argument. -/
def NewFromResponseStatus (status : Status) : GoError := GoError.FromResponseStatus status

/-- A `map[string]string` argument: `none` is the nil map. -/
abbrev Filters := Option (String → Option String)

/-- The assignment `m[key] = value` on a non-nil map. -/
def mapSet (m : String → Option String) (key value : String) : String → Option String :=
  fun k => if k = key then some value else m k

/-- BulkInput: `common.BulkInput`, one logical sub-request of a bulk call. `F`
is the type of a per-item filter map (`map[string]interface{}`). -/
structure BulkInput (F : Type) where
  MethodName : String
  Filters : F

/-- A response body stream: what reading it to the end gives, the bytes or a
read error. -/
abbrev ReadCloser := Except GoError String

/-- HttpResponse: the part of `*http.Response` the methods use. -/
structure HttpResponse where
  Body : ReadCloser

/-- The call `ioutil.ReadAll(r)`. -/
def ReadAll (r : ReadCloser) : Except GoError String := r

/-- One call of the transport, with its arguments. -/
inductive Call (F : Type) where
  | SendRequest (apiMethod : String) (filters : Filters)
  | SendRequestBulk (inputs : List (BulkInput F)) (filters : Filters)

/-- Client: the transport of the embedded `*common.Client`: what each of its
two request methods answers to given arguments. -/
structure Client (F : Type) where
  SendRequest : String → Filters → Except GoError HttpResponse
  SendRequestBulk : List (BulkInput F) → Filters → Except GoError HttpResponse

/-- Env: the helpers and constants the methods use that are declared outside
the source tree: the status predicate `common.IsJSONResponseOK`, the method
`String()` of the error-code type, and the constant `ResponseTypeCSV`. -/
structure Env where
  IsJSONResponseOK : Status → Bool
  ErrorCodeString : Int → String
  ResponseTypeCSV : String

/-- The call `json.Unmarshal(body, &dst)`: the value left in `dst` and the
error, given by its text (`none` is success). -/
abbrev Unmarshaler (T : Type) := String → T → T × Option String

/-- The call `json.NewDecoder(r).Decode(&dst)`: the value left in `dst` and
the error, given by its text (`none` is success). -/
abbrev Decoder (T : Type) := ReadCloser → T → T × Option String

/-- How a call ends: it returns a value and an error, or it panics. -/
inductive Outcome (α : Type) where
  | returned (value : α) (err : Option GoError)
  | panicked

/-- The error a call returned, if it returned. -/
def Outcome.err? {α : Type} : Outcome α → Option (Option GoError)
  | .returned _ err => some err
  | .panicked => none

/-- A run of a method: the transport calls it made and how it ended. -/
structure Run (F : Type) (α : Type) where
  calls : List (Call F)
  outcome : Outcome α

/-- What the transport answers to a call. -/
def Client.answer {F : Type} (cli : Client F) : Call F → Except GoError HttpResponse
  | .SendRequest apiMethod filters => cli.SendRequest apiMethod filters
  | .SendRequestBulk inputs filters => cli.SendRequestBulk inputs filters

/-- A method body as a program over the transport. The body has no transport
in its hands: it either ends (`done`), or it makes one transport call
(`call`) and goes on with whatever the transport answers. Every `SendRequest`
or `SendRequestBulk` of the source is one `call` node. -/
inductive Prog (F : Type) (α : Type) where
  | done (outcome : Outcome α)
  | call (c : Call F) (next : Except GoError HttpResponse → Prog F α)

/-- A program run against the transport `cli`: each `call` node is answered by
`cli` and logged, in order, in `calls`. -/
def Prog.run {F α : Type} (cli : Client F) : Prog F α → Run F α
  | .done outcome => { calls := [], outcome := outcome }
  | .call c next =>
    { calls := c :: (Prog.run cli (next (cli.answer c))).calls
      outcome := (Prog.run cli (next (cli.answer c))).outcome }

/-- `strconv.Itoa`: the decimal text of an integer. -/
def Itoa (n : Int) : String := toString n

/-! ## Bulk response shapes

The bulk envelopes of the products package are declared outside the source
tree. Their shape is the one of `prices.GetPriceListsResponseBulk`
(`prices/models.go`), which the methods' field accesses agree with. -/

/-- One item of a bulk envelope (`...ResponseBulkItem`): its status and its
records (JSON key `records`). -/
structure ResponseBulkItem (X R : Type) where
  Status : StatusBulk X
  Records : List R

/-- A bulk envelope (`...ResponseBulk`): the aggregate status and the items
(JSON key `requests`). -/
structure ResponseBulk (X R : Type) where
  Status : Status
  BulkItems : List (ResponseBulkItem X R)

/-- The zero value of a bulk envelope (`var productsResp ...ResponseBulk`). -/
def ResponseBulk.zero {X R : Type} : ResponseBulk X R := { Status := Status.zero, BulkItems := [] }

/-- The item loop of the four bulk methods (`requests.go` lines 73-77,
127-131, 177-181, 304-308, the same text in each):
`for _, item := range items { if !IsJSONResponseOK(&item.Status.Status) { return resp, NewErplyError(..) } }`.
The result is the error of the `return` inside the loop, or `none` when the
loop runs to its end. -/
def rangeBulkItems {X R : Type} (env : Env) : List (ResponseBulkItem X R) → Option GoError
  | [] => none
  | prodBulkItem :: rest =>
    if !env.IsJSONResponseOK prodBulkItem.Status.Status then
      some (NewErplyError (env.ErrorCodeString prodBulkItem.Status.ErrorCode)
        (prodBulkItem.Status.Request ++ ": " ++ prodBulkItem.Status.ResponseStatus))
    else rangeBulkItems env rest

namespace products

/-! ## `pkg/api/products/requests.go`: bulk methods -/

/-- GetProductsBulk (`requests.go` lines 47-80). -/
def GetProductsBulk.body {F X R : Type} (env : Env)
    (Unmarshal : Unmarshaler (ResponseBulk X R))
    (bulkFilters : List F) (baseFilters : Filters) : Prog F (ResponseBulk X R) :=
  let productsResp : ResponseBulk X R := ResponseBulk.zero
  let bulkInputs : List (BulkInput F) :=
    bulkFilters.foldl
      (fun acc bulkFilterMap => acc ++ [{ MethodName := "getProducts", Filters := bulkFilterMap }]) []
  Prog.call (Call.SendRequestBulk bulkInputs baseFilters) fun answer => Prog.done (
      match answer with
      | .error err => .returned productsResp (some err)
      | .ok resp =>
        match ReadAll resp.Body with
        | .error err => .returned productsResp (some err)
        | .ok body =>
          match Unmarshal body productsResp with
          | (productsResp, some err) =>
            .returned productsResp (some (GoError.Errorf
              ("ERPLY API: failed to unmarshal GetProductsResponseBulk from '" ++ body ++ "': " ++ err)))
          | (productsResp, none) =>
            if !env.IsJSONResponseOK productsResp.Status then
              .returned productsResp (some (NewErplyError
                (env.ErrorCodeString productsResp.Status.ErrorCode)
                (productsResp.Status.Request ++ ": " ++ productsResp.Status.ResponseStatus)))
            else
              match rangeBulkItems env productsResp.BulkItems with
              | some err => .returned productsResp (some err)
              | none => .returned productsResp none)

/-- GetProductsBulk, run against the transport `cli`. -/
def GetProductsBulk {F X R : Type} (env : Env) (cli : Client F)
    (Unmarshal : Unmarshaler (ResponseBulk X R))
    (bulkFilters : List F) (baseFilters : Filters) : Run F (ResponseBulk X R) :=
  Prog.run cli (GetProductsBulk.body env Unmarshal bulkFilters baseFilters)

/-- SaveProductBulk (`requests.go` lines 101-134). -/
def SaveProductBulk.body {F X R : Type} (env : Env)
    (Unmarshal : Unmarshaler (ResponseBulk X R))
    (bulkFilters : List F) (baseFilters : Filters) : Prog F (ResponseBulk X R) :=
  let productsResp : ResponseBulk X R := ResponseBulk.zero
  let bulkInputs : List (BulkInput F) :=
    bulkFilters.foldl
      (fun acc bulkFilterMap => acc ++ [{ MethodName := "saveProduct", Filters := bulkFilterMap }]) []
  Prog.call (Call.SendRequestBulk bulkInputs baseFilters) fun answer => Prog.done (
      match answer with
      | .error err => .returned productsResp (some err)
      | .ok resp =>
        match ReadAll resp.Body with
        | .error err => .returned productsResp (some err)
        | .ok body =>
          match Unmarshal body productsResp with
          | (productsResp, some err) =>
            .returned productsResp (some (GoError.Errorf
              ("ERPLY API: failed to unmarshal SaveProductResponseBulk from '" ++ body ++ "': " ++ err)))
          | (productsResp, none) =>
            if !env.IsJSONResponseOK productsResp.Status then
              .returned productsResp (some (NewErplyError
                (env.ErrorCodeString productsResp.Status.ErrorCode)
                (productsResp.Status.Request ++ ": " ++ productsResp.Status.ResponseStatus)))
            else
              match rangeBulkItems env productsResp.BulkItems with
              | some err => .returned productsResp (some err)
              | none => .returned productsResp none)

/-- SaveProductBulk, run against the transport `cli`. -/
def SaveProductBulk {F X R : Type} (env : Env) (cli : Client F)
    (Unmarshal : Unmarshaler (ResponseBulk X R))
    (bulkFilters : List F) (baseFilters : Filters) : Run F (ResponseBulk X R) :=
  Prog.run cli (SaveProductBulk.body env Unmarshal bulkFilters baseFilters)

/-- DeleteProductBulk (`requests.go` lines 151-184). -/
def DeleteProductBulk.body {F X R : Type} (env : Env)
    (Unmarshal : Unmarshaler (ResponseBulk X R))
    (bulkFilters : List F) (baseFilters : Filters) : Prog F (ResponseBulk X R) :=
  let deleteRespBulk : ResponseBulk X R := ResponseBulk.zero
  let bulkInputs : List (BulkInput F) :=
    bulkFilters.foldl
      (fun acc bulkFilterMap => acc ++ [{ MethodName := "deleteProduct", Filters := bulkFilterMap }]) []
  Prog.call (Call.SendRequestBulk bulkInputs baseFilters) fun answer => Prog.done (
      match answer with
      | .error err => .returned deleteRespBulk (some err)
      | .ok resp =>
        match ReadAll resp.Body with
        | .error err => .returned deleteRespBulk (some err)
        | .ok body =>
          match Unmarshal body deleteRespBulk with
          | (deleteRespBulk, some err) =>
            .returned deleteRespBulk (some (GoError.Errorf
              ("ERPLY API: failed to unmarshal DeleteProductResponseBulk from '" ++ body ++ "': " ++ err)))
          | (deleteRespBulk, none) =>
            if !env.IsJSONResponseOK deleteRespBulk.Status then
              .returned deleteRespBulk (some (NewErplyError
                (env.ErrorCodeString deleteRespBulk.Status.ErrorCode)
                (deleteRespBulk.Status.Request ++ ": " ++ deleteRespBulk.Status.ResponseStatus)))
            else
              match rangeBulkItems env deleteRespBulk.BulkItems with
              | some err => .returned deleteRespBulk (some err)
              | none => .returned deleteRespBulk none)

/-- DeleteProductBulk, run against the transport `cli`. -/
def DeleteProductBulk {F X R : Type} (env : Env) (cli : Client F)
    (Unmarshal : Unmarshaler (ResponseBulk X R))
    (bulkFilters : List F) (baseFilters : Filters) : Run F (ResponseBulk X R) :=
  Prog.run cli (DeleteProductBulk.body env Unmarshal bulkFilters baseFilters)

/-- GetProductStockFileBulk (`requests.go` lines 277-311). The assignment
`baseFilters["responseType"] = ResponseTypeCSV` (line 286) panics on a nil
map, before the transport is called. -/
def GetProductStockFileBulk.body {F X R : Type} (env : Env)
    (Unmarshal : Unmarshaler (ResponseBulk X R))
    (bulkFilters : List F) (baseFilters : Filters) : Prog F (ResponseBulk X R) :=
  let productsStockResp : ResponseBulk X R := ResponseBulk.zero
  let bulkInputs : List (BulkInput F) :=
    bulkFilters.foldl
      (fun acc bulkFilterMap => acc ++ [{ MethodName := "getProductStock", Filters := bulkFilterMap }]) []
  match baseFilters with
  | none => Prog.done .panicked
  | some m =>
  let baseFilters : Filters := some (mapSet m "responseType" env.ResponseTypeCSV)
  Prog.call (Call.SendRequestBulk bulkInputs baseFilters) fun answer => Prog.done (
      match answer with
      | .error err => .returned productsStockResp (some err)
      | .ok resp =>
        match ReadAll resp.Body with
        | .error err => .returned productsStockResp (some err)
        | .ok body =>
          match Unmarshal body productsStockResp with
          | (productsStockResp, some err) =>
            .returned productsStockResp (some (GoError.Errorf
              ("ERPLY API: failed to unmarshal GetProductStockFileResponseBulk from '" ++ body ++ "': " ++ err)))
          | (productsStockResp, none) =>
            if !env.IsJSONResponseOK productsStockResp.Status then
              .returned productsStockResp (some (NewErplyError
                (env.ErrorCodeString productsStockResp.Status.ErrorCode)
                (productsStockResp.Status.Request ++ ": " ++ productsStockResp.Status.ResponseStatus)))
            else
              match rangeBulkItems env productsStockResp.BulkItems with
              | some err => .returned productsStockResp (some err)
              | none => .returned productsStockResp none)

/-- GetProductStockFileBulk, run against the transport `cli`. -/
def GetProductStockFileBulk {F X R : Type} (env : Env) (cli : Client F)
    (Unmarshal : Unmarshaler (ResponseBulk X R))
    (bulkFilters : List F) (baseFilters : Filters) : Run F (ResponseBulk X R) :=
  Prog.run cli (GetProductStockFileBulk.body env Unmarshal bulkFilters baseFilters)

end products

/-! ## Single-call response shapes

`GetProductsResponse`, `getProductCategoriesResponse`,
`getProductBrandsResponse`, `getProductGroupsResponse` and
`GetProductUnitsResponse` are declared in `product.go` (lines 13-31, 130-133).
The others are declared outside the source tree; their fields are the ones
the methods read. `R` is the record type (JSON key `records`). -/

/-- GetProductsResponse (`product.go` lines 13-16). -/
structure GetProductsResponse (R : Type) where
  Status : Status
  Products : List R

/-- Response shape getProductCategoriesResponse (`product.go` lines 18-21). -/
structure getProductCategoriesResponse (R : Type) where
  Status : Status
  ProductCategories : List R

/-- Response shape getProductBrandsResponse (`product.go` lines 23-26). -/
structure getProductBrandsResponse (R : Type) where
  Status : Status
  ProductBrands : List R

/-- Response shape getProductGroupsResponse (`product.go` lines 28-31). -/
structure getProductGroupsResponse (R : Type) where
  Status : Status
  ProductGroups : List R

/-- GetProductUnitsResponse (`product.go` lines 130-133). -/
structure GetProductUnitsResponse (R : Type) where
  Status : Status
  ProductUnits : List R

/-- SaveProductResponse, read by `SaveProduct`. -/
structure SaveProductResponse (R : Type) where
  Status : Status
  SaveProductResults : List R

/-- DeleteProductResponse, read by `DeleteProduct`. -/
structure DeleteProductResponse where
  Status : Status

/-- GetProductStockResponse, read by `GetProductStock`. -/
structure GetProductStockResponse (R : Type) where
  Status : Status
  GetProductStock : List R

/-- GetProductStockFileResponse, read by `GetProductStockFile`. -/
structure GetProductStockFileResponse (R : Type) where
  Status : Status
  GetProductStockFile : List R

/-- Response of the addresses package, read by `GetAddresses` and `SaveAddress`. -/
structure AddressResponse (R : Type) where
  Status : Status
  Addresses : List R

namespace addresses

/-! ## `pkg/api/addresses/addressRequests.go` -/

/-- GetAddresses (`addressRequests.go` lines 11-27). The destination is a pointer
(`res := &Response{}`, decoded through `&res`), so a decode may leave it nil;
reading `res.Status` through a nil pointer panics. -/
def GetAddresses.body {F R : Type} (env : Env) (Decode : Decoder (Option (AddressResponse R)))
    (filters : Filters) : Prog F (List R) :=
  Prog.call (Call.SendRequest "getAddresses" filters) fun answer => Prog.done (
      match answer with
      | .error err => .returned [] (some (NewFromError "GetAddresses request failed" (some err)))
      | .ok resp =>
        match Decode resp.Body (some { Status := Status.zero, Addresses := [] }) with
        | (_, some err) =>
          .returned [] (some (NewFromError "unmarshaling GetAddressesResponse failed" (some (GoError.external err))))
        | (none, none) => .panicked
        | (some res, none) =>
          if !env.IsJSONResponseOK res.Status then
            .returned [] (some (NewErplyError (env.ErrorCodeString res.Status.ErrorCode)
              (res.Status.Request ++ ": " ++ res.Status.ResponseStatus)))
          else .returned res.Addresses none)

/-- GetAddresses, run against the transport `cli`. -/
def GetAddresses {F R : Type} (env : Env) (cli : Client F) (Decode : Decoder (Option (AddressResponse R)))
    (filters : Filters) : Run F (List R) :=
  Prog.run cli (GetAddresses.body env Decode filters)

/-- SaveAddress (`addressRequests.go` lines 28-48). The destination is a pointer
(`res := &Response{}`, decoded through `&res`), so a decode may leave it nil;
reading `res.Status` through a nil pointer panics. -/
def SaveAddress.body {F R : Type} (env : Env) (Decode : Decoder (Option (AddressResponse R)))
    (filters : Filters) : Prog F (List R) :=
  Prog.call (Call.SendRequest "saveAddress" filters) fun answer => Prog.done (
      match answer with
      | .error err => .returned [] (some (NewFromError "saveAddress: request failed" (some err)))
      | .ok resp =>
        match Decode resp.Body (some { Status := Status.zero, Addresses := [] }) with
        | (_, some err) =>
          .returned [] (some (NewFromError "saveAddress: JSON unmarshal failed" (some (GoError.external err))))
        | (none, none) => .panicked
        | (some res, none) =>
          if !env.IsJSONResponseOK res.Status then
            .returned [] (some (NewErplyError (env.ErrorCodeString res.Status.ErrorCode)
              (res.Status.Request ++ ": " ++ res.Status.ResponseStatus)))
          else if res.Addresses.length = 0 then
            .returned [] (some (NewFromError "saveAddress: no records in response" none))
          else .returned res.Addresses none)

/-- SaveAddress, run against the transport `cli`. -/
def SaveAddress {F R : Type} (env : Env) (cli : Client F) (Decode : Decoder (Option (AddressResponse R)))
    (filters : Filters) : Run F (List R) :=
  Prog.run cli (SaveAddress.body env Decode filters)

end addresses

namespace productGo

/-! ## `pkg/api/products/product.go`

In this file `Status.ErrorCode` is an `int` and its text is `strconv.Itoa`. -/

/-- GetProductUnits (`product.go` lines 161-178). The destination is a pointer
(`res := &GetProductUnitsResponse{}`, decoded through `&res`), so a decode may leave it nil;
reading `res.Status` through a nil pointer panics. -/
def GetProductUnits.body {F R : Type} (env : Env) (Decode : Decoder (Option (GetProductUnitsResponse R)))
    (filters : Filters) : Prog F (List R) :=
  Prog.call (Call.SendRequest "getProductUnits" filters) fun answer => Prog.done (
      match answer with
      | .error err => .returned [] (some (NewFromError "GetProductUnits request failed" (some err)))
      | .ok resp =>
        match Decode resp.Body (some { Status := Status.zero, ProductUnits := [] }) with
        | (_, some err) =>
          .returned [] (some (NewFromError "unmarshaling GetProductUnitsResponse failed" (some (GoError.external err))))
        | (none, none) => .panicked
        | (some res, none) =>
          if !env.IsJSONResponseOK res.Status then
            .returned [] (some (NewErplyError (Itoa res.Status.ErrorCode)
              (res.Status.Request ++ ": " ++ res.Status.ResponseStatus)))
          else .returned res.ProductUnits none)

/-- GetProductUnits, run against the transport `cli`. -/
def GetProductUnits {F R : Type} (env : Env) (cli : Client F) (Decode : Decoder (Option (GetProductUnitsResponse R)))
    (filters : Filters) : Run F (List R) :=
  Prog.run cli (GetProductUnits.body env Decode filters)

/-- GetProducts (`product.go` lines 180-193). -/
def GetProducts.body {F R : Type} (env : Env) (Decode : Decoder (GetProductsResponse R))
    (filters : Filters) : Prog F (List R) :=
  Prog.call (Call.SendRequest "getProducts" filters) fun answer => Prog.done (
      match answer with
      | .error err => .returned [] (some err)
      | .ok resp =>
        match Decode resp.Body { Status := Status.zero, Products := [] } with
        | (_, some err) =>
          .returned [] (some (NewFromError "failed to unmarshal GetProductsResponse" (some (GoError.external err))))
        | (res, none) =>
          if !env.IsJSONResponseOK res.Status then
            .returned [] (some (NewErplyError (Itoa res.Status.ErrorCode)
              (res.Status.Request ++ ": " ++ res.Status.ResponseStatus)))
          else .returned res.Products none)

/-- GetProducts, run against the transport `cli`. -/
def GetProducts {F R : Type} (env : Env) (cli : Client F) (Decode : Decoder (GetProductsResponse R))
    (filters : Filters) : Run F (List R) :=
  Prog.run cli (GetProducts.body env Decode filters)

/-- GetProductCategories (`product.go` lines 195-208). -/
def GetProductCategories.body {F R : Type} (env : Env) (Decode : Decoder (getProductCategoriesResponse R))
    (filters : Filters) : Prog F (List R) :=
  Prog.call (Call.SendRequest "getProductCategories" filters) fun answer => Prog.done (
      match answer with
      | .error err => .returned [] (some err)
      | .ok resp =>
        match Decode resp.Body { Status := Status.zero, ProductCategories := [] } with
        | (_, some err) =>
          .returned [] (some (NewFromError "failed to unmarshal getProductCategoriesResponse" (some (GoError.external err))))
        | (res, none) =>
          if !env.IsJSONResponseOK res.Status then
            .returned [] (some (NewErplyError (Itoa res.Status.ErrorCode)
              (res.Status.Request ++ ": " ++ res.Status.ResponseStatus)))
          else .returned res.ProductCategories none)

/-- GetProductCategories, run against the transport `cli`. -/
def GetProductCategories {F R : Type} (env : Env) (cli : Client F) (Decode : Decoder (getProductCategoriesResponse R))
    (filters : Filters) : Run F (List R) :=
  Prog.run cli (GetProductCategories.body env Decode filters)

/-- GetProductBrands (`product.go` lines 210-223). -/
def GetProductBrands.body {F R : Type} (env : Env) (Decode : Decoder (getProductBrandsResponse R))
    (filters : Filters) : Prog F (List R) :=
  Prog.call (Call.SendRequest "getProductBrands" filters) fun answer => Prog.done (
      match answer with
      | .error err => .returned [] (some err)
      | .ok resp =>
        match Decode resp.Body { Status := Status.zero, ProductBrands := [] } with
        | (_, some err) =>
          .returned [] (some (NewFromError "failed to unmarshal getProductBrandsResponse" (some (GoError.external err))))
        | (res, none) =>
          if !env.IsJSONResponseOK res.Status then
            .returned [] (some (NewErplyError (Itoa res.Status.ErrorCode)
              (res.Status.Request ++ ": " ++ res.Status.ResponseStatus)))
          else .returned res.ProductBrands none)

/-- GetProductBrands, run against the transport `cli`. -/
def GetProductBrands {F R : Type} (env : Env) (cli : Client F) (Decode : Decoder (getProductBrandsResponse R))
    (filters : Filters) : Run F (List R) :=
  Prog.run cli (GetProductBrands.body env Decode filters)

/-- GetProductGroups (`product.go` lines 225-238). -/
def GetProductGroups.body {F R : Type} (env : Env) (Decode : Decoder (getProductGroupsResponse R))
    (filters : Filters) : Prog F (List R) :=
  Prog.call (Call.SendRequest "getProductGroups" filters) fun answer => Prog.done (
      match answer with
      | .error err => .returned [] (some err)
      | .ok resp =>
        match Decode resp.Body { Status := Status.zero, ProductGroups := [] } with
        | (_, some err) =>
          .returned [] (some (NewFromError "failed to unmarshal getProductGroupsResponse" (some (GoError.external err))))
        | (res, none) =>
          if !env.IsJSONResponseOK res.Status then
            .returned [] (some (NewErplyError (Itoa res.Status.ErrorCode)
              (res.Status.Request ++ ": " ++ res.Status.ResponseStatus)))
          else .returned res.ProductGroups none)

/-- GetProductGroups, run against the transport `cli`. -/
def GetProductGroups {F R : Type} (env : Env) (cli : Client F) (Decode : Decoder (getProductGroupsResponse R))
    (filters : Filters) : Run F (List R) :=
  Prog.run cli (GetProductGroups.body env Decode filters)

end productGo

namespace products

/-! ## `pkg/api/products/requests.go`: single-call methods

Here a non-OK status becomes `erro.NewFromResponseStatus(&res.Status)`. -/

/-- GetProductUnits (`requests.go` lines 12-29). The destination is a pointer
(`res := &GetProductUnitsResponse{}`, decoded through `&res`), so a decode may leave it nil;
reading `res.Status` through a nil pointer panics. -/
def GetProductUnits.body {F R : Type} (env : Env) (Decode : Decoder (Option (GetProductUnitsResponse R)))
    (filters : Filters) : Prog F (List R) :=
  Prog.call (Call.SendRequest "getProductUnits" filters) fun answer => Prog.done (
      match answer with
      | .error err => .returned [] (some (NewFromError "GetProductUnits request failed" (some err)))
      | .ok resp =>
        match Decode resp.Body (some { Status := Status.zero, ProductUnits := [] }) with
        | (_, some err) =>
          .returned [] (some (NewFromError "unmarshaling GetProductUnitsResponse failed" (some (GoError.external err))))
        | (none, none) => .panicked
        | (some res, none) =>
          if !env.IsJSONResponseOK res.Status then
            .returned [] (some (NewFromResponseStatus res.Status))
          else .returned res.ProductUnits none)

/-- GetProductUnits, run against the transport `cli`. -/
def GetProductUnits {F R : Type} (env : Env) (cli : Client F) (Decode : Decoder (Option (GetProductUnitsResponse R)))
    (filters : Filters) : Run F (List R) :=
  Prog.run cli (GetProductUnits.body env Decode filters)

/-- GetProducts (`requests.go` lines 31-44). -/
def GetProducts.body {F R : Type} (env : Env) (Decode : Decoder (GetProductsResponse R))
    (filters : Filters) : Prog F (List R) :=
  Prog.call (Call.SendRequest "getProducts" filters) fun answer => Prog.done (
      match answer with
      | .error err => .returned [] (some err)
      | .ok resp =>
        match Decode resp.Body { Status := Status.zero, Products := [] } with
        | (_, some err) =>
          .returned [] (some (NewFromError "failed to unmarshal GetProductsResponse" (some (GoError.external err))))
        | (res, none) =>
          if !env.IsJSONResponseOK res.Status then
            .returned [] (some (NewFromResponseStatus res.Status))
          else .returned res.Products none)

/-- GetProducts, run against the transport `cli`. -/
def GetProducts {F R : Type} (env : Env) (cli : Client F) (Decode : Decoder (GetProductsResponse R))
    (filters : Filters) : Run F (List R) :=
  Prog.run cli (GetProducts.body env Decode filters)

/-- SaveProduct (`requests.go` lines 82-99). `zero` is the zero value
`SaveProductResult{}` of the record type. -/
def SaveProduct.body {F R : Type} (env : Env) (Decode : Decoder (SaveProductResponse R))
    (zero : R) (filters : Filters) : Prog F R :=
  Prog.call (Call.SendRequest "saveProduct" filters) fun answer => Prog.done (
      match answer with
      | .error err => .returned zero (some err)
      | .ok resp =>
        match Decode resp.Body { Status := Status.zero, SaveProductResults := [] } with
        | (_, some err) =>
          .returned zero (some (NewFromError "failed to unmarshal SaveProductResult" (some (GoError.external err))))
        | (res, none) =>
          if !env.IsJSONResponseOK res.Status then
            .returned zero (some (NewFromResponseStatus res.Status))
          else
            match res.SaveProductResults with
            | first :: _ => .returned first none
            | [] => .returned zero none)

/-- SaveProduct, run against the transport `cli`. -/
def SaveProduct {F R : Type} (env : Env) (cli : Client F) (Decode : Decoder (SaveProductResponse R))
    (zero : R) (filters : Filters) : Run F R :=
  Prog.run cli (SaveProduct.body env Decode zero filters)

/-- DeleteProduct (`requests.go` lines 136-149). It returns an error only. -/
def DeleteProduct.body {F : Type} (env : Env) (Decode : Decoder DeleteProductResponse)
    (filters : Filters) : Prog F Unit :=
  Prog.call (Call.SendRequest "deleteProduct" filters) fun answer => Prog.done (
      match answer with
      | .error err => .returned () (some err)
      | .ok resp =>
        match Decode resp.Body { Status := Status.zero } with
        | (_, some err) =>
          .returned () (some (NewFromError "failed to unmarshal DeleteProductResponse" (some (GoError.external err))))
        | (res, none) =>
          if !env.IsJSONResponseOK res.Status then
            .returned () (some (NewFromResponseStatus res.Status))
          else .returned () none)

/-- DeleteProduct, run against the transport `cli`. -/
def DeleteProduct {F : Type} (env : Env) (cli : Client F) (Decode : Decoder DeleteProductResponse)
    (filters : Filters) : Run F Unit :=
  Prog.run cli (DeleteProduct.body env Decode filters)

/-- GetProductCategories (`requests.go` lines 186-199). -/
def GetProductCategories.body {F R : Type} (env : Env) (Decode : Decoder (getProductCategoriesResponse R))
    (filters : Filters) : Prog F (List R) :=
  Prog.call (Call.SendRequest "getProductCategories" filters) fun answer => Prog.done (
      match answer with
      | .error err => .returned [] (some err)
      | .ok resp =>
        match Decode resp.Body { Status := Status.zero, ProductCategories := [] } with
        | (_, some err) =>
          .returned [] (some (NewFromError "failed to unmarshal getProductCategoriesResponse" (some (GoError.external err))))
        | (res, none) =>
          if !env.IsJSONResponseOK res.Status then
            .returned [] (some (NewFromResponseStatus res.Status))
          else .returned res.ProductCategories none)

/-- GetProductCategories, run against the transport `cli`. -/
def GetProductCategories {F R : Type} (env : Env) (cli : Client F) (Decode : Decoder (getProductCategoriesResponse R))
    (filters : Filters) : Run F (List R) :=
  Prog.run cli (GetProductCategories.body env Decode filters)

/-- GetProductBrands (`requests.go` lines 201-214). -/
def GetProductBrands.body {F R : Type} (env : Env) (Decode : Decoder (getProductBrandsResponse R))
    (filters : Filters) : Prog F (List R) :=
  Prog.call (Call.SendRequest "getProductBrands" filters) fun answer => Prog.done (
      match answer with
      | .error err => .returned [] (some err)
      | .ok resp =>
        match Decode resp.Body { Status := Status.zero, ProductBrands := [] } with
        | (_, some err) =>
          .returned [] (some (NewFromError "failed to unmarshal getProductBrandsResponse" (some (GoError.external err))))
        | (res, none) =>
          if !env.IsJSONResponseOK res.Status then
            .returned [] (some (NewFromResponseStatus res.Status))
          else .returned res.ProductBrands none)

/-- GetProductBrands, run against the transport `cli`. -/
def GetProductBrands {F R : Type} (env : Env) (cli : Client F) (Decode : Decoder (getProductBrandsResponse R))
    (filters : Filters) : Run F (List R) :=
  Prog.run cli (GetProductBrands.body env Decode filters)

/-- GetBrands (`requests.go` lines 216-229). -/
def GetBrands.body {F R : Type} (env : Env) (Decode : Decoder (getProductBrandsResponse R))
    (filters : Filters) : Prog F (List R) :=
  Prog.call (Call.SendRequest "getBrands" filters) fun answer => Prog.done (
      match answer with
      | .error err => .returned [] (some err)
      | .ok resp =>
        match Decode resp.Body { Status := Status.zero, ProductBrands := [] } with
        | (_, some err) =>
          .returned [] (some (NewFromError "failed to unmarshal getBrandsResponse" (some (GoError.external err))))
        | (res, none) =>
          if !env.IsJSONResponseOK res.Status then
            .returned [] (some (NewFromResponseStatus res.Status))
          else .returned res.ProductBrands none)

/-- GetBrands, run against the transport `cli`. -/
def GetBrands {F R : Type} (env : Env) (cli : Client F) (Decode : Decoder (getProductBrandsResponse R))
    (filters : Filters) : Run F (List R) :=
  Prog.run cli (GetBrands.body env Decode filters)

/-- GetProductGroups (`requests.go` lines 231-244). -/
def GetProductGroups.body {F R : Type} (env : Env) (Decode : Decoder (getProductGroupsResponse R))
    (filters : Filters) : Prog F (List R) :=
  Prog.call (Call.SendRequest "getProductGroups" filters) fun answer => Prog.done (
      match answer with
      | .error err => .returned [] (some err)
      | .ok resp =>
        match Decode resp.Body { Status := Status.zero, ProductGroups := [] } with
        | (_, some err) =>
          .returned [] (some (NewFromError "failed to unmarshal getProductGroupsResponse" (some (GoError.external err))))
        | (res, none) =>
          if !env.IsJSONResponseOK res.Status then
            .returned [] (some (NewFromResponseStatus res.Status))
          else .returned res.ProductGroups none)

/-- GetProductGroups, run against the transport `cli`. -/
def GetProductGroups {F R : Type} (env : Env) (cli : Client F) (Decode : Decoder (getProductGroupsResponse R))
    (filters : Filters) : Run F (List R) :=
  Prog.run cli (GetProductGroups.body env Decode filters)

/-- GetProductStock (`requests.go` lines 246-259). -/
def GetProductStock.body {F R : Type} (env : Env) (Decode : Decoder (GetProductStockResponse R))
    (filters : Filters) : Prog F (List R) :=
  Prog.call (Call.SendRequest "getProductStock" filters) fun answer => Prog.done (
      match answer with
      | .error err => .returned [] (some err)
      | .ok resp =>
        match Decode resp.Body { Status := Status.zero, GetProductStock := [] } with
        | (_, some err) =>
          .returned [] (some (NewFromError "failed to unmarshal GetProductStockResponse" (some (GoError.external err))))
        | (res, none) =>
          if !env.IsJSONResponseOK res.Status then
            .returned [] (some (NewFromResponseStatus res.Status))
          else .returned res.GetProductStock none)

/-- GetProductStock, run against the transport `cli`. -/
def GetProductStock {F R : Type} (env : Env) (cli : Client F) (Decode : Decoder (GetProductStockResponse R))
    (filters : Filters) : Run F (List R) :=
  Prog.run cli (GetProductStock.body env Decode filters)

/-- GetProductStockFile (`requests.go` lines 261-275). The assignment
`filters["responseType"] = ResponseTypeCSV` (line 262) panics on a nil map,
before the transport is called. -/
def GetProductStockFile.body {F R : Type} (env : Env) (Decode : Decoder (GetProductStockFileResponse R))
    (filters : Filters) : Prog F (List R) :=
  match filters with
  | none => Prog.done .panicked
  | some m =>
  let filters : Filters := some (mapSet m "responseType" env.ResponseTypeCSV)
  Prog.call (Call.SendRequest "getProductStock" filters) fun answer => Prog.done (
      match answer with
      | .error err => .returned [] (some err)
      | .ok resp =>
        match Decode resp.Body { Status := Status.zero, GetProductStockFile := [] } with
        | (_, some err) =>
          .returned [] (some (NewFromError "failed to unmarshal GetProductStockFileResponse" (some (GoError.external err))))
        | (res, none) =>
          if !env.IsJSONResponseOK res.Status then
            .returned [] (some (NewFromResponseStatus res.Status))
          else .returned res.GetProductStockFile none)

/-- GetProductStockFile, run against the transport `cli`. -/
def GetProductStockFile {F R : Type} (env : Env) (cli : Client F) (Decode : Decoder (GetProductStockFileResponse R))
    (filters : Filters) : Run F (List R) :=
  Prog.run cli (GetProductStockFile.body env Decode filters)

end products

/-! ## The family of bulk methods -/

/-- The four bulk methods of `requests.go`. -/
inductive BulkMethod where
  | GetProductsBulk
  | SaveProductBulk
  | DeleteProductBulk
  | GetProductStockFileBulk
deriving DecidableEq, Repr

/-- A run of the named bulk method. -/
def BulkMethod.run {F X R : Type} (meth : BulkMethod) (env : Env) (cli : Client F)
    (Unmarshal : Unmarshaler (ResponseBulk X R)) (bulkFilters : List F) (baseFilters : Filters) :
    Run F (ResponseBulk X R) :=
  match meth with
  | .GetProductsBulk => products.GetProductsBulk env cli Unmarshal bulkFilters baseFilters
  | .SaveProductBulk => products.SaveProductBulk env cli Unmarshal bulkFilters baseFilters
  | .DeleteProductBulk => products.DeleteProductBulk env cli Unmarshal bulkFilters baseFilters
  | .GetProductStockFileBulk => products.GetProductStockFileBulk env cli Unmarshal bulkFilters baseFilters

/-- The verb a bulk method tags each of its inputs with. -/
def BulkMethod.verb : BulkMethod → String
  | .GetProductsBulk => "getProducts"
  | .SaveProductBulk => "saveProduct"
  | .DeleteProductBulk => "deleteProduct"
  | .GetProductStockFileBulk => "getProductStock"

/-- The name of the response type in a bulk method's decode error. -/
def BulkMethod.responseType : BulkMethod → String
  | .GetProductsBulk => "GetProductsResponseBulk"
  | .SaveProductBulk => "SaveProductResponseBulk"
  | .DeleteProductBulk => "DeleteProductResponseBulk"
  | .GetProductStockFileBulk => "GetProductStockFileResponseBulk"

/-- The shared filters a bulk method hands to the transport, or `none` when
it panics before the call (`GetProductStockFileBulk` on a nil map). -/
def BulkMethod.sent (meth : BulkMethod) (env : Env) (baseFilters : Filters) : Option Filters :=
  match meth, baseFilters with
  | .GetProductStockFileBulk, none => none
  | .GetProductStockFileBulk, some m => some (some (mapSet m "responseType" env.ResponseTypeCSV))
  | _, baseFilters => some baseFilters

/-- The inputs a bulk method hands to the transport: one per filter map, in
order, tagged with the method's verb. -/
def BulkMethod.inputs {F : Type} (meth : BulkMethod) (bulkFilters : List F) : List (BulkInput F) :=
  bulkFilters.map fun bulkFilterMap => { MethodName := meth.verb, Filters := bulkFilterMap }

/-- The transport call of the bulk method succeeds and its body reads to the
end as `body`. -/
def BulkMethod.Answers {F : Type} (meth : BulkMethod) (env : Env) (cli : Client F)
    (bulkFilters : List F) (baseFilters : Filters) (body : String) : Prop :=
  ∃ sent, meth.sent env baseFilters = some sent ∧
    cli.SendRequestBulk (meth.inputs bulkFilters) sent = .ok { Body := .ok body }

/-- The transport call of the bulk method succeeds and its body decodes,
without error, into the envelope `decoded`. -/
def BulkMethod.Decodes {F X R : Type} (meth : BulkMethod) (env : Env) (cli : Client F)
    (Unmarshal : Unmarshaler (ResponseBulk X R)) (bulkFilters : List F) (baseFilters : Filters)
    (decoded : ResponseBulk X R) : Prop :=
  ∃ body, meth.Answers env cli bulkFilters baseFilters body ∧
    Unmarshal body ResponseBulk.zero = (decoded, none)

/-- The error a bulk method returns for a decoded envelope: the aggregate
check first, then the item loop. -/
def bulkStatusCheck {X R : Type} (env : Env) (decoded : ResponseBulk X R) : Option GoError :=
  if !env.IsJSONResponseOK decoded.Status then
    some (NewErplyError (env.ErrorCodeString decoded.Status.ErrorCode)
      (decoded.Status.Request ++ ": " ++ decoded.Status.ResponseStatus))
  else rangeBulkItems env decoded.BulkItems

/-! ## Concrete inputs -/

/-- A concrete environment for the examples: a status is OK exactly when its
`ResponseStatus` is the sentinel `"ok"` (the `isOK` of the spec, section
4.2), an error code prints in decimal, and the CSV response type is `"CSV"`. -/
def sampleEnv : Env :=
  { IsJSONResponseOK := fun status => status.ResponseStatus == "ok"
    ErrorCodeString := fun code => toString code
    ResponseTypeCSV := "CSV" }

/-- A transport that answers every request with the given body. -/
def sampleClient (body : String) : Client Unit :=
  { SendRequest := fun _ _ => .ok { Body := .ok body }
    SendRequestBulk := fun _ _ => .ok { Body := .ok body } }

/-- An OK status for the verb `request`. -/
def okStatus (request : String) : Status :=
  { ErrorCode := 0, Request := request, ResponseStatus := "ok" }

/-- A failing status for the verb `request` with the given error code. -/
def errorStatus (code : Int) (request : String) : Status :=
  { ErrorCode := code, Request := request, ResponseStatus := "error" }

/-- A bulk item with the given status and records. -/
def sampleItem (status : Status) (records : List Nat) : ResponseBulkItem Unit Nat :=
  { Status := { Status := status, rest := () }, Records := records }

/-- An envelope with an OK aggregate status whose item 0 succeeded with one
record, whose item 1 failed with code 1011 and whose item 2 failed with code
1012. -/
def mixedEnvelope : ResponseBulk Unit Nat :=
  { Status := okStatus "getProducts"
    BulkItems :=
      [ sampleItem (okStatus "getProducts") [7]
      , sampleItem (errorStatus 1011 "getProducts") []
      , sampleItem (errorStatus 1012 "getProducts") [] ] }

/-- An envelope with a failing aggregate status (code 1002) over the given
items. -/
def rejectedEnvelope (items : List (ResponseBulkItem Unit Nat)) : ResponseBulk Unit Nat :=
  { Status := errorStatus 1002 "getProducts", BulkItems := items }

/-- An envelope with an OK aggregate status and no item. -/
def emptyEnvelope : ResponseBulk Unit Nat :=
  { Status := okStatus "getProducts", BulkItems := [] }

/-- An envelope with an OK aggregate status and two OK items. -/
def fullEnvelope : ResponseBulk Unit Nat :=
  { Status := okStatus "getProducts"
    BulkItems :=
      [ sampleItem (okStatus "getProducts") [7]
      , sampleItem (okStatus "getProducts") [8, 9] ] }

/-- A JSON decode that succeeds on every body and leaves `decoded` in the
destination. -/
def decodesTo {T : Type} (decoded : T) : Unmarshaler T := fun _ _ => (decoded, none)

/-- A JSON decode that fails on every body with the given error text and
leaves the destination as it was. -/
def decodeFails {T : Type} (text : String) : Unmarshaler T := fun _ dst => (dst, some text)

/-- A stream decode that succeeds on every body and leaves `decoded` in the
destination. -/
def streamDecodesTo {T : Type} (decoded : T) : Decoder T := fun _ _ => (decoded, none)

/-- A stream decode that fails on every body with the given error text and
leaves the destination as it was. -/
def streamDecodeFails {T : Type} (text : String) : Decoder T := fun _ dst => (dst, some text)

/-! ## Transport calls -/

/-- A method, as a function of the transport, performs exactly the one
transport call `call`: on every transport the log of the calls its body made
(`Prog.run`) is `[call]`, whatever the transport answers, and its outcome
depends on the transport through the answer to `call` alone. -/
def PerformsExactly {F α : Type} (run : Client F → Run F α) (call : Call F) : Prop :=
  (∀ cli, (run cli).calls = [call]) ∧
    ∀ cli cli2, cli.answer call = cli2.answer call → (run cli).outcome = (run cli2).outcome

/-- A transport that fails every request with the given error. -/
def failingClient (cause : GoError) : Client Unit :=
  { SendRequest := fun _ _ => .error cause
    SendRequestBulk := fun _ _ => .error cause }

/-- A filter map with the single entry `key`, `value`. -/
def singletonMap (key value : String) : String → Option String :=
  fun k => if k = key then some value else none

/-- A transport, for any type of per-item filter map, that answers every
request with the given body. -/
def answeringClient {F : Type} (body : String) : Client F :=
  { SendRequest := fun _ _ => .ok { Body := .ok body }
    SendRequestBulk := fun _ _ => .ok { Body := .ok body } }

/-! ## Lemmas on the bulk methods -/

theorem foldl_append_singleton_eq_map {α β : Type} (f : α → β) (xs : List α) (acc : List β) :
    xs.foldl (fun acc x => acc ++ [f x]) acc = acc ++ xs.map f := by
  induction xs generalizing acc with
  | nil => simp
  | cons x xs ih => simp [ih]

theorem BulkMethod.outcome_of_answers {F X R : Type} (meth : BulkMethod) (env : Env)
    (cli : Client F) (Unmarshal : Unmarshaler (ResponseBulk X R)) (bulkFilters : List F)
    (baseFilters : Filters) (body : String)
    (h : meth.Answers env cli bulkFilters baseFilters body) :
    (meth.run env cli Unmarshal bulkFilters baseFilters).outcome =
      match Unmarshal body ResponseBulk.zero with
      | (left, some err) =>
        .returned left (some (GoError.Errorf
          ("ERPLY API: failed to unmarshal " ++ meth.responseType ++ " from \x27" ++ body ++ "\x27: " ++ err)))
      | (decoded, none) => .returned decoded (bulkStatusCheck env decoded) := by
  obtain ⟨sent, hsent, hcall⟩ := h
  cases meth
  case GetProductStockFileBulk =>
    cases baseFilters with
    | none => simp [BulkMethod.sent] at hsent
    | some m =>
      simp only [BulkMethod.sent, Option.some.injEq] at hsent
      subst hsent
      simp only [BulkMethod.inputs, BulkMethod.verb] at hcall
      simp only [BulkMethod.run, products.GetProductStockFileBulk, products.GetProductStockFileBulk.body, Prog.run, Client.answer, foldl_append_singleton_eq_map,
        List.nil_append, hcall, ReadAll, BulkMethod.responseType, bulkStatusCheck]
      rcases hu : Unmarshal body ResponseBulk.zero with ⟨left, _ | err⟩
      · simp only
        split <;> rename_i hok
        · rfl
        · cases hr : rangeBulkItems env left.BulkItems <;> rfl
      · simp [String.append_assoc]
  all_goals
    simp only [BulkMethod.sent, Option.some.injEq] at hsent
    subst hsent
    simp only [BulkMethod.inputs, BulkMethod.verb] at hcall
    simp only [BulkMethod.run, products.GetProductsBulk, products.GetProductsBulk.body, Prog.run, Client.answer, products.SaveProductBulk, products.SaveProductBulk.body,
      products.DeleteProductBulk, products.DeleteProductBulk.body, foldl_append_singleton_eq_map,
      List.nil_append, hcall, ReadAll, BulkMethod.responseType, bulkStatusCheck]
    rcases hu : Unmarshal body ResponseBulk.zero with ⟨left, _ | err⟩
    · simp only
      split <;> rename_i hok
      · rfl
      · cases hr : rangeBulkItems env left.BulkItems <;> rfl
    · simp [String.append_assoc]

theorem rangeBulkItems_eq_none_iff {X R : Type} (env : Env) (items : List (ResponseBulkItem X R)) :
    rangeBulkItems env items = none ↔
      ∀ item ∈ items, env.IsJSONResponseOK item.Status.Status = true := by
  induction items with
  | nil => simp [rangeBulkItems]
  | cons item rest ih =>
    cases hok : env.IsJSONResponseOK item.Status.Status <;> simp [rangeBulkItems, hok, ih]

theorem rangeBulkItems_first_failing {X R : Type} (env : Env) :
    ∀ (items : List (ResponseBulkItem X R)) (k : Nat) (item : ResponseBulkItem X R),
      items[k]? = some item →
      (∀ i, i < k → ∀ it, items[i]? = some it → env.IsJSONResponseOK it.Status.Status = true) →
      env.IsJSONResponseOK item.Status.Status = false →
      rangeBulkItems env items =
        some (GoError.ErplyError (env.ErrorCodeString item.Status.ErrorCode)
          (item.Status.Request ++ ": " ++ item.Status.ResponseStatus))
  | [], k, item, hk, _, _ => by simp at hk
  | first :: rest, 0, item, hk, _, hbad => by
    simp only [List.getElem?_cons_zero, Option.some.injEq] at hk
    subst hk
    simp [rangeBulkItems, hbad, NewErplyError]
  | first :: rest, k + 1, item, hk, hbefore, hbad => by
    have hfirst : env.IsJSONResponseOK first.Status.Status = true :=
      hbefore 0 (Nat.succ_pos k) first (by simp)
    have hrest := rangeBulkItems_first_failing env rest k item (by simpa using hk)
      (fun i hi it hit => hbefore (i + 1) (Nat.succ_lt_succ hi) it (by simpa using hit)) hbad
    simp [rangeBulkItems, hfirst, hrest]

theorem BulkMethod.outcome_of_decodes {F X R : Type} (meth : BulkMethod) (env : Env)
    (cli : Client F) (Unmarshal : Unmarshaler (ResponseBulk X R)) (bulkFilters : List F)
    (baseFilters : Filters) (decoded : ResponseBulk X R)
    (h : meth.Decodes env cli Unmarshal bulkFilters baseFilters decoded) :
    (meth.run env cli Unmarshal bulkFilters baseFilters).outcome =
      .returned decoded (bulkStatusCheck env decoded) := by
  obtain ⟨body, hans, hdec⟩ := h
  rw [BulkMethod.outcome_of_answers meth env cli Unmarshal bulkFilters baseFilters body hans, hdec]

theorem bulkStatusCheck_eq_none_iff {X R : Type} (env : Env) (decoded : ResponseBulk X R) :
    bulkStatusCheck env decoded = none ↔
      env.IsJSONResponseOK decoded.Status = true ∧
        ∀ item ∈ decoded.BulkItems, env.IsJSONResponseOK item.Status.Status = true := by
  unfold bulkStatusCheck
  cases hok : env.IsJSONResponseOK decoded.Status <;> simp [rangeBulkItems_eq_none_iff]

theorem BulkMethod.decodes_of_success {F X R : Type} (meth : BulkMethod) (env : Env)
    (cli : Client F) (Unmarshal : Unmarshaler (ResponseBulk X R)) (bulkFilters : List F)
    (baseFilters : Filters)
    (h : (meth.run env cli Unmarshal bulkFilters baseFilters).outcome.err? = some none) :
    ∃ decoded, meth.Decodes env cli Unmarshal bulkFilters baseFilters decoded := by
  have key : ∀ sent, meth.sent env baseFilters = some sent →
      (∀ err, cli.SendRequestBulk (meth.inputs bulkFilters) sent = .error err →
        (meth.run env cli Unmarshal bulkFilters baseFilters).outcome.err? = some (some err)) ∧
      (∀ err, cli.SendRequestBulk (meth.inputs bulkFilters) sent = .ok { Body := .error err } →
        (meth.run env cli Unmarshal bulkFilters baseFilters).outcome.err? = some (some err)) := by
    intro sent hsent
    cases meth
    case GetProductStockFileBulk =>
      cases baseFilters with
      | none => simp [BulkMethod.sent] at hsent
      | some m =>
        simp only [BulkMethod.sent, Option.some.injEq] at hsent
        subst hsent
        constructor <;> intro err hcall <;>
          simp only [BulkMethod.inputs, BulkMethod.verb] at hcall <;>
          simp [BulkMethod.run, products.GetProductStockFileBulk, products.GetProductStockFileBulk.body, Prog.run, Client.answer, foldl_append_singleton_eq_map,
            hcall, ReadAll, Outcome.err?]
    all_goals
      simp only [BulkMethod.sent, Option.some.injEq] at hsent
      subst hsent
      constructor <;> intro err hcall <;>
        simp only [BulkMethod.inputs, BulkMethod.verb] at hcall <;>
        simp [BulkMethod.run, products.GetProductsBulk, products.GetProductsBulk.body, Prog.run, Client.answer, products.SaveProductBulk, products.SaveProductBulk.body,
          products.DeleteProductBulk, products.DeleteProductBulk.body, foldl_append_singleton_eq_map,
          hcall, ReadAll, Outcome.err?]
  cases hsent : meth.sent env baseFilters with
  | none =>
    cases meth <;> cases baseFilters <;> simp [BulkMethod.sent] at hsent
    simp [BulkMethod.run, products.GetProductStockFileBulk, products.GetProductStockFileBulk.body, Prog.run, Client.answer, Outcome.err?] at h
  | some sent =>
    obtain ⟨herr, hread⟩ := key sent hsent
    cases hcall : cli.SendRequestBulk (meth.inputs bulkFilters) sent with
    | error err => rw [herr err hcall] at h; simp at h
    | ok resp =>
      obtain ⟨body⟩ := resp
      cases body with
      | error err => rw [hread err hcall] at h; simp at h
      | ok body =>
        have hans : meth.Answers env cli bulkFilters baseFilters body := ⟨sent, hsent, hcall⟩
        rw [BulkMethod.outcome_of_answers meth env cli Unmarshal bulkFilters baseFilters body hans]
          at h
        rcases hu : Unmarshal body ResponseBulk.zero with ⟨left, _ | text⟩
        · exact ⟨left, body, hans, hu⟩
        · simp [hu, Outcome.err?] at h

/-! ## Bulk calls: the first failing item -/

/-- C1: for every bulk method and every decoded envelope whose aggregate
status is OK, whose items before index `k` are OK and whose item `k` is not,
the call returns the non-nil error `NewErplyError(code, message)` with `code`
the text of item `k`'s error code and `message` item `k`'s request, `": "` and
item `k`'s response status; nothing is assumed of the items after `k`. -/
theorem bulk_error_is_first_failing_item {F X R : Type} (meth : BulkMethod) (env : Env)
    (cli : Client F) (Unmarshal : Unmarshaler (ResponseBulk X R)) (bulkFilters : List F)
    (baseFilters : Filters) (decoded : ResponseBulk X R) (k : Nat) (item : ResponseBulkItem X R)
    (hdec : meth.Decodes env cli Unmarshal bulkFilters baseFilters decoded)
    (hagg : env.IsJSONResponseOK decoded.Status = true)
    (hbefore : ∀ i, i < k → ∀ it, decoded.BulkItems[i]? = some it →
      env.IsJSONResponseOK it.Status.Status = true)
    (hk : decoded.BulkItems[k]? = some item)
    (hbad : env.IsJSONResponseOK item.Status.Status = false) :
    (meth.run env cli Unmarshal bulkFilters baseFilters).outcome.err? =
      some (some (GoError.ErplyError (env.ErrorCodeString item.Status.ErrorCode)
        (item.Status.Request ++ ": " ++ item.Status.ResponseStatus))) := by
  rw [BulkMethod.outcome_of_decodes meth env cli Unmarshal bulkFilters baseFilters decoded hdec]
  simp [Outcome.err?, bulkStatusCheck, hagg,
    rangeBulkItems_first_failing env decoded.BulkItems k item hk hbefore hbad]

/-- Witness of C1: on `mixedEnvelope` (item 0 OK, items 1 and 2 failing) the
error of `GetProductsBulk` is the one of item 1. -/
theorem bulk_error_is_first_failing_item_witness :
    (BulkMethod.GetProductsBulk.run sampleEnv (sampleClient "response") (decodesTo mixedEnvelope)
        [(), (), ()] none).outcome.err? =
      some (some (GoError.ErplyError "1011" "getProducts: error")) :=
  bulk_error_is_first_failing_item BulkMethod.GetProductsBulk sampleEnv (sampleClient "response")
    (decodesTo mixedEnvelope) [(), (), ()] none mixedEnvelope 1
    (sampleItem (errorStatus 1011 "getProducts") [])
    ⟨"response", ⟨none, rfl, rfl⟩, rfl⟩ rfl
    (by
      intro i hi it hit
      have hi0 : i = 0 := by omega
      subst hi0
      simp only [mixedEnvelope, List.getElem?_cons_zero, Option.some.injEq] at hit
      subst hit
      rfl)
    rfl rfl

/-! ## Bulk calls: what is returned alongside an error -/

/-- C2, as stated, fails: on `mixedEnvelope` (aggregate OK, item 0 OK with the
record 7, item 1 failing) `GetProductsBulk` returns a non-nil error together
with the whole decoded envelope, whose item 0 still carries its record. -/
theorem bulk_error_keeps_records_counterexample :
    (BulkMethod.GetProductsBulk.run sampleEnv (sampleClient "response") (decodesTo mixedEnvelope)
        [(), (), ()] none).outcome =
      Outcome.returned mixedEnvelope (some (GoError.ErplyError "1011" "getProducts: error")) ∧
    mixedEnvelope.BulkItems.head?.map ResponseBulkItem.Records = some [7] := by
  constructor <;> rfl

/-- C2, amended: for every bulk method and every decoded envelope in which the
aggregate status or some item status is not OK, the call returns a non-nil
error, and the value returned alongside it is the decoded envelope itself,
with all its items and their records. -/
theorem bulk_error_returns_decoded_envelope {F X R : Type} (meth : BulkMethod) (env : Env)
    (cli : Client F) (Unmarshal : Unmarshaler (ResponseBulk X R)) (bulkFilters : List F)
    (baseFilters : Filters) (decoded : ResponseBulk X R)
    (hdec : meth.Decodes env cli Unmarshal bulkFilters baseFilters decoded)
    (hbad : env.IsJSONResponseOK decoded.Status = false ∨
      ∃ item ∈ decoded.BulkItems, env.IsJSONResponseOK item.Status.Status = false) :
    ∃ err, (meth.run env cli Unmarshal bulkFilters baseFilters).outcome =
      Outcome.returned decoded (some err) := by
  rw [BulkMethod.outcome_of_decodes meth env cli Unmarshal bulkFilters baseFilters decoded hdec]
  cases hcheck : bulkStatusCheck env decoded with
  | some err => exact ⟨err, rfl⟩
  | none =>
    obtain ⟨hagg, hitems⟩ := (bulkStatusCheck_eq_none_iff env decoded).mp hcheck
    rcases hbad with hbad | ⟨item, hmem, hbad⟩
    · rw [hagg] at hbad
      cases hbad
    · rw [hitems item hmem] at hbad
      cases hbad

/-- Witness of the amended C2 on `mixedEnvelope`. -/
theorem bulk_error_returns_decoded_envelope_witness :
    ∃ err, (BulkMethod.SaveProductBulk.run sampleEnv (sampleClient "response")
        (decodesTo mixedEnvelope) [(), (), ()] none).outcome =
      Outcome.returned mixedEnvelope (some err) :=
  bulk_error_returns_decoded_envelope BulkMethod.SaveProductBulk sampleEnv
    (sampleClient "response") (decodesTo mixedEnvelope) [(), (), ()] none mixedEnvelope
    ⟨"response", ⟨none, rfl, rfl⟩, rfl⟩
    (Or.inr ⟨sampleItem (errorStatus 1011 "getProducts") [], by simp [mixedEnvelope], rfl⟩)

/-! ## Bulk calls: a failing aggregate status -/

/-- C3: for every bulk method and every decoded envelope whose aggregate
status is not OK, the call returns the non-nil error
`NewErplyError(code, message)` built from the aggregate status, and a run of
the same call whose decoded envelope differs only in its items (`items`, any
list) returns the same error. -/
theorem bulk_aggregate_error_ignores_items {F X R : Type} (meth : BulkMethod) (env : Env)
    (cli : Client F) (Unmarshal Unmarshal2 : Unmarshaler (ResponseBulk X R))
    (bulkFilters : List F) (baseFilters : Filters) (decoded : ResponseBulk X R)
    (items : List (ResponseBulkItem X R))
    (hdec : meth.Decodes env cli Unmarshal bulkFilters baseFilters decoded)
    (hdec2 : meth.Decodes env cli Unmarshal2 bulkFilters baseFilters
      { Status := decoded.Status, BulkItems := items })
    (hagg : env.IsJSONResponseOK decoded.Status = false) :
    (meth.run env cli Unmarshal bulkFilters baseFilters).outcome.err? =
        some (some (GoError.ErplyError (env.ErrorCodeString decoded.Status.ErrorCode)
          (decoded.Status.Request ++ ": " ++ decoded.Status.ResponseStatus))) ∧
      (meth.run env cli Unmarshal2 bulkFilters baseFilters).outcome.err? =
        (meth.run env cli Unmarshal bulkFilters baseFilters).outcome.err? := by
  rw [BulkMethod.outcome_of_decodes meth env cli Unmarshal bulkFilters baseFilters decoded hdec,
    BulkMethod.outcome_of_decodes meth env cli Unmarshal2 bulkFilters baseFilters _ hdec2]
  simp [Outcome.err?, bulkStatusCheck, hagg, NewErplyError]

/-- Witness of C3: a rejected envelope with no item and one with the three
items of `mixedEnvelope` give `DeleteProductBulk` the same error. -/
theorem bulk_aggregate_error_ignores_items_witness :
    (BulkMethod.DeleteProductBulk.run sampleEnv (sampleClient "response")
        (decodesTo (rejectedEnvelope [])) [()] none).outcome.err? =
        some (some (GoError.ErplyError "1002" "getProducts: error")) ∧
      (BulkMethod.DeleteProductBulk.run sampleEnv (sampleClient "response")
        (decodesTo (rejectedEnvelope mixedEnvelope.BulkItems)) [()] none).outcome.err? =
      (BulkMethod.DeleteProductBulk.run sampleEnv (sampleClient "response")
        (decodesTo (rejectedEnvelope [])) [()] none).outcome.err? :=
  bulk_aggregate_error_ignores_items BulkMethod.DeleteProductBulk sampleEnv
    (sampleClient "response") (decodesTo (rejectedEnvelope []))
    (decodesTo (rejectedEnvelope mixedEnvelope.BulkItems)) [()] none (rejectedEnvelope [])
    mixedEnvelope.BulkItems ⟨"response", ⟨none, rfl, rfl⟩, rfl⟩
    ⟨"response", ⟨none, rfl, rfl⟩, rfl⟩ rfl

/-! ## Bulk calls: the items of a successful call -/

/-- C4, as stated, fails: `GetProductsBulk` called with two filter maps, on a
response that decodes to an OK envelope without items, returns without error
an envelope of zero items, not two. -/
theorem bulk_success_length_counterexample :
    (BulkMethod.GetProductsBulk.run sampleEnv (sampleClient "response") (decodesTo emptyEnvelope)
        [(), ()] none).outcome = Outcome.returned emptyEnvelope none ∧
    emptyEnvelope.BulkItems.length = 0 ∧ [(), ()].length = 2 := by
  refine ⟨rfl, rfl, rfl⟩

/-- C4, amended: for every bulk method, every list of per-item filter maps
and every response, if the call returns without error then the response body
decoded into an envelope whose aggregate status and item statuses are all OK,
and the returned envelope is that decoded envelope: its items are the items
of the response, in the order of the response, whatever the number of filter
maps submitted. -/
theorem bulk_success_returns_response_items {F X R : Type} (meth : BulkMethod) (env : Env)
    (cli : Client F) (Unmarshal : Unmarshaler (ResponseBulk X R)) (bulkFilters : List F)
    (baseFilters : Filters)
    (hret : (meth.run env cli Unmarshal bulkFilters baseFilters).outcome.err? = some none) :
    ∃ decoded, meth.Decodes env cli Unmarshal bulkFilters baseFilters decoded ∧
      env.IsJSONResponseOK decoded.Status = true ∧
      (∀ item ∈ decoded.BulkItems, env.IsJSONResponseOK item.Status.Status = true) ∧
      (meth.run env cli Unmarshal bulkFilters baseFilters).outcome =
        Outcome.returned decoded none := by
  obtain ⟨decoded, hdec⟩ :=
    BulkMethod.decodes_of_success meth env cli Unmarshal bulkFilters baseFilters hret
  rw [BulkMethod.outcome_of_decodes meth env cli Unmarshal bulkFilters baseFilters decoded hdec]
    at hret ⊢
  simp only [Outcome.err?, Option.some.injEq] at hret
  obtain ⟨hagg, hitems⟩ := (bulkStatusCheck_eq_none_iff env decoded).mp hret
  exact ⟨decoded, hdec, hagg, hitems, by rw [hret]⟩

/-- Witness of the amended C4: two filter maps, a response of zero items. -/
theorem bulk_success_returns_response_items_witness :
    ∃ decoded, BulkMethod.GetProductsBulk.Decodes sampleEnv (sampleClient "response")
        (decodesTo emptyEnvelope) [(), ()] none decoded ∧
      sampleEnv.IsJSONResponseOK decoded.Status = true ∧
      (∀ item ∈ decoded.BulkItems, sampleEnv.IsJSONResponseOK item.Status.Status = true) ∧
      (BulkMethod.GetProductsBulk.run sampleEnv (sampleClient "response")
        (decodesTo emptyEnvelope) [(), ()] none).outcome = Outcome.returned decoded none :=
  bulk_success_returns_response_items BulkMethod.GetProductsBulk sampleEnv
    (sampleClient "response") (decodesTo emptyEnvelope) [(), ()] none rfl

/-! ## Bulk calls: when the error is nil -/

/-- C8: for every bulk method whose transport call and JSON decode succeed,
the returned error is nil exactly when the aggregate status and every item
status of the decoded envelope are OK, and then the returned envelope is the
decoded envelope; an OK envelope without items is a success. -/
theorem bulk_nil_error_iff_all_ok {F X R : Type} (meth : BulkMethod) (env : Env)
    (cli : Client F) (Unmarshal : Unmarshaler (ResponseBulk X R)) (bulkFilters : List F)
    (baseFilters : Filters) (decoded : ResponseBulk X R)
    (hdec : meth.Decodes env cli Unmarshal bulkFilters baseFilters decoded) :
    ((meth.run env cli Unmarshal bulkFilters baseFilters).outcome.err? = some none ↔
        env.IsJSONResponseOK decoded.Status = true ∧
          ∀ item ∈ decoded.BulkItems, env.IsJSONResponseOK item.Status.Status = true) ∧
      ((meth.run env cli Unmarshal bulkFilters baseFilters).outcome.err? = some none →
        (meth.run env cli Unmarshal bulkFilters baseFilters).outcome =
          Outcome.returned decoded none) ∧
      (env.IsJSONResponseOK decoded.Status = true → decoded.BulkItems = [] →
        (meth.run env cli Unmarshal bulkFilters baseFilters).outcome =
          Outcome.returned decoded none) := by
  rw [BulkMethod.outcome_of_decodes meth env cli Unmarshal bulkFilters baseFilters decoded hdec]
  refine ⟨?_, ?_, ?_⟩
  · simp only [Outcome.err?, Option.some.injEq]
    exact bulkStatusCheck_eq_none_iff env decoded
  · intro h
    simp only [Outcome.err?, Option.some.injEq] at h
    rw [h]
  · intro hagg hnil
    have : bulkStatusCheck env decoded = none :=
      (bulkStatusCheck_eq_none_iff env decoded).mpr ⟨hagg, by simp [hnil]⟩
    rw [this]

/-- Witness of C8 on `fullEnvelope` (two OK items) for `GetProductStockFileBulk`. -/
theorem bulk_nil_error_iff_all_ok_witness :
    (BulkMethod.GetProductStockFileBulk.run sampleEnv (sampleClient "response")
      (decodesTo fullEnvelope) [(), ()] (some fun _ => none)).outcome =
        Outcome.returned fullEnvelope none :=
  (bulk_nil_error_iff_all_ok BulkMethod.GetProductStockFileBulk sampleEnv
    (sampleClient "response") (decodesTo fullEnvelope) [(), ()] (some fun _ => none) fullEnvelope
    ⟨"response", ⟨_, rfl, rfl⟩, rfl⟩).2.1 rfl

/-! ## Bulk calls: the decode error -/

/-- C10: for every bulk method and every response body that fails to decode,
the returned error is the `fmt.Errorf` error whose text is
`ERPLY API: failed to unmarshal `, the name of the response type, ` from '`,
the whole body, `': ` and the text of the parse error. -/
theorem bulk_decode_error_message {F X R : Type} (meth : BulkMethod) (env : Env)
    (cli : Client F) (Unmarshal : Unmarshaler (ResponseBulk X R)) (bulkFilters : List F)
    (baseFilters : Filters) (body : String) (left : ResponseBulk X R) (parseError : String)
    (hans : meth.Answers env cli bulkFilters baseFilters body)
    (hfail : Unmarshal body ResponseBulk.zero = (left, some parseError)) :
    (meth.run env cli Unmarshal bulkFilters baseFilters).outcome.err? =
      some (some (GoError.Errorf
        ("ERPLY API: failed to unmarshal " ++ meth.responseType ++ " from '" ++ body ++ "': "
          ++ parseError))) := by
  rw [BulkMethod.outcome_of_answers meth env cli Unmarshal bulkFilters baseFilters body hans, hfail]
  rfl

/-- Witness of C10: the body `not json` and the parse error `invalid character`. -/
theorem bulk_decode_error_message_witness :
    (BulkMethod.GetProductsBulk.run sampleEnv (sampleClient "not json")
      (decodeFails "invalid character") [()] none :
        Run Unit (ResponseBulk Unit Nat)).outcome.err? =
      some (some (GoError.Errorf
        "ERPLY API: failed to unmarshal GetProductsResponseBulk from 'not json': invalid character")) :=
  bulk_decode_error_message BulkMethod.GetProductsBulk sampleEnv (sampleClient "not json")
    (decodeFails "invalid character") [()] none "not json" ResponseBulk.zero "invalid character"
    ⟨none, rfl, rfl⟩ rfl

/-! ## Single calls: a status that is not OK -/

/-- C6: for `GetAddresses`, `SaveAddress` (addressRequests.go) and
`GetProductUnits`, `GetProducts`, `GetProductCategories`, `GetProductBrands`,
`GetProductGroups` (product.go), and every response that decodes with a
status that is not OK, the method returns nil records and the error
`NewErplyError(code, message)` with `code` the text of `status.ErrorCode` and
`message` equal to `status.Request`, `": "` and `status.ResponseStatus`,
whatever records the response carries. -/
theorem single_error_status_gives_api_error {F R : Type} (env : Env) (cli : Client F)
    (filters : Filters) (resp : HttpResponse) :
    (∀ (Decode : Decoder (Option (AddressResponse R))) (res : AddressResponse R),
        cli.SendRequest "getAddresses" filters = .ok resp →
        Decode resp.Body (some { Status := Status.zero, Addresses := [] }) = (some res, none) →
        env.IsJSONResponseOK res.Status = false →
        (addresses.GetAddresses env cli Decode filters).outcome =
          Outcome.returned [] (some (GoError.ErplyError (env.ErrorCodeString res.Status.ErrorCode)
            (res.Status.Request ++ ": " ++ res.Status.ResponseStatus)))) ∧
    (∀ (Decode : Decoder (Option (AddressResponse R))) (res : AddressResponse R),
        cli.SendRequest "saveAddress" filters = .ok resp →
        Decode resp.Body (some { Status := Status.zero, Addresses := [] }) = (some res, none) →
        env.IsJSONResponseOK res.Status = false →
        (addresses.SaveAddress env cli Decode filters).outcome =
          Outcome.returned [] (some (GoError.ErplyError (env.ErrorCodeString res.Status.ErrorCode)
            (res.Status.Request ++ ": " ++ res.Status.ResponseStatus)))) ∧
    (∀ (Decode : Decoder (Option (GetProductUnitsResponse R))) (res : GetProductUnitsResponse R),
        cli.SendRequest "getProductUnits" filters = .ok resp →
        Decode resp.Body (some { Status := Status.zero, ProductUnits := [] }) = (some res, none) →
        env.IsJSONResponseOK res.Status = false →
        (productGo.GetProductUnits env cli Decode filters).outcome =
          Outcome.returned [] (some (GoError.ErplyError (Itoa res.Status.ErrorCode)
            (res.Status.Request ++ ": " ++ res.Status.ResponseStatus)))) ∧
    (∀ (Decode : Decoder (GetProductsResponse R)) (res : GetProductsResponse R),
        cli.SendRequest "getProducts" filters = .ok resp →
        Decode resp.Body { Status := Status.zero, Products := [] } = (res, none) →
        env.IsJSONResponseOK res.Status = false →
        (productGo.GetProducts env cli Decode filters).outcome =
          Outcome.returned [] (some (GoError.ErplyError (Itoa res.Status.ErrorCode)
            (res.Status.Request ++ ": " ++ res.Status.ResponseStatus)))) ∧
    (∀ (Decode : Decoder (getProductCategoriesResponse R)) (res : getProductCategoriesResponse R),
        cli.SendRequest "getProductCategories" filters = .ok resp →
        Decode resp.Body { Status := Status.zero, ProductCategories := [] } = (res, none) →
        env.IsJSONResponseOK res.Status = false →
        (productGo.GetProductCategories env cli Decode filters).outcome =
          Outcome.returned [] (some (GoError.ErplyError (Itoa res.Status.ErrorCode)
            (res.Status.Request ++ ": " ++ res.Status.ResponseStatus)))) ∧
    (∀ (Decode : Decoder (getProductBrandsResponse R)) (res : getProductBrandsResponse R),
        cli.SendRequest "getProductBrands" filters = .ok resp →
        Decode resp.Body { Status := Status.zero, ProductBrands := [] } = (res, none) →
        env.IsJSONResponseOK res.Status = false →
        (productGo.GetProductBrands env cli Decode filters).outcome =
          Outcome.returned [] (some (GoError.ErplyError (Itoa res.Status.ErrorCode)
            (res.Status.Request ++ ": " ++ res.Status.ResponseStatus)))) ∧
    (∀ (Decode : Decoder (getProductGroupsResponse R)) (res : getProductGroupsResponse R),
        cli.SendRequest "getProductGroups" filters = .ok resp →
        Decode resp.Body { Status := Status.zero, ProductGroups := [] } = (res, none) →
        env.IsJSONResponseOK res.Status = false →
        (productGo.GetProductGroups env cli Decode filters).outcome =
          Outcome.returned [] (some (GoError.ErplyError (Itoa res.Status.ErrorCode)
            (res.Status.Request ++ ": " ++ res.Status.ResponseStatus)))) := by
  refine ⟨?_, ?_, ?_, ?_, ?_, ?_, ?_⟩ <;> intro Decode res hsend hdec hbad <;>
    simp [addresses.GetAddresses, addresses.GetAddresses.body, Prog.run, Client.answer, addresses.SaveAddress, addresses.SaveAddress.body, productGo.GetProductUnits, productGo.GetProductUnits.body,
      productGo.GetProducts, productGo.GetProducts.body, productGo.GetProductCategories, productGo.GetProductCategories.body, productGo.GetProductBrands, productGo.GetProductBrands.body,
      productGo.GetProductGroups, productGo.GetProductGroups.body, hsend, hdec, hbad, NewErplyError]

/-- Witness of C6: `GetProducts` of product.go on a response with the status
(1005, getProducts, error) and one record. -/
theorem single_error_status_gives_api_error_witness :
    (productGo.GetProducts sampleEnv (sampleClient "response")
      (streamDecodesTo { Status := errorStatus 1005 "getProducts", Products := [7] })
      none).outcome =
        Outcome.returned [] (some (GoError.ErplyError "1005" "getProducts: error")) :=
  (single_error_status_gives_api_error sampleEnv (sampleClient "response") none
    { Body := .ok "response" }).2.2.2.1
    (streamDecodesTo { Status := errorStatus 1005 "getProducts", Products := [7] })
    { Status := errorStatus 1005 "getProducts", Products := [7] } rfl rfl rfl

/-! ## Single calls: an OK status -/

/-- C7: for every list-type single-call method (`GetAddresses`; `GetProducts`,
`GetProductUnits`, `GetProductCategories`, `GetProductBrands`,
`GetProductGroups` of product.go and of requests.go; `GetBrands` and
`GetProductStock` of requests.go) and every response that decodes with an OK
status, the method returns a nil error and the decoded records sequence
itself: same elements, same order, same length, the empty sequence
included. -/
theorem single_ok_status_returns_records {F R : Type} (env : Env) (cli : Client F)
    (filters : Filters) (resp : HttpResponse) :
    (∀ (Decode : Decoder (Option (AddressResponse R))) (res : AddressResponse R),
        cli.SendRequest "getAddresses" filters = .ok resp →
        Decode resp.Body (some { Status := Status.zero, Addresses := [] }) = (some res, none) →
        env.IsJSONResponseOK res.Status = true →
        (addresses.GetAddresses env cli Decode filters).outcome = Outcome.returned res.Addresses none) ∧
    (∀ (Decode : Decoder (Option (GetProductUnitsResponse R))) (res : GetProductUnitsResponse R),
        cli.SendRequest "getProductUnits" filters = .ok resp →
        Decode resp.Body (some { Status := Status.zero, ProductUnits := [] }) = (some res, none) →
        env.IsJSONResponseOK res.Status = true →
        (productGo.GetProductUnits env cli Decode filters).outcome = Outcome.returned res.ProductUnits none) ∧
    (∀ (Decode : Decoder (GetProductsResponse R)) (res : GetProductsResponse R),
        cli.SendRequest "getProducts" filters = .ok resp →
        Decode resp.Body { Status := Status.zero, Products := [] } = (res, none) →
        env.IsJSONResponseOK res.Status = true →
        (productGo.GetProducts env cli Decode filters).outcome = Outcome.returned res.Products none) ∧
    (∀ (Decode : Decoder (getProductCategoriesResponse R)) (res : getProductCategoriesResponse R),
        cli.SendRequest "getProductCategories" filters = .ok resp →
        Decode resp.Body { Status := Status.zero, ProductCategories := [] } = (res, none) →
        env.IsJSONResponseOK res.Status = true →
        (productGo.GetProductCategories env cli Decode filters).outcome = Outcome.returned res.ProductCategories none) ∧
    (∀ (Decode : Decoder (getProductBrandsResponse R)) (res : getProductBrandsResponse R),
        cli.SendRequest "getProductBrands" filters = .ok resp →
        Decode resp.Body { Status := Status.zero, ProductBrands := [] } = (res, none) →
        env.IsJSONResponseOK res.Status = true →
        (productGo.GetProductBrands env cli Decode filters).outcome = Outcome.returned res.ProductBrands none) ∧
    (∀ (Decode : Decoder (getProductGroupsResponse R)) (res : getProductGroupsResponse R),
        cli.SendRequest "getProductGroups" filters = .ok resp →
        Decode resp.Body { Status := Status.zero, ProductGroups := [] } = (res, none) →
        env.IsJSONResponseOK res.Status = true →
        (productGo.GetProductGroups env cli Decode filters).outcome = Outcome.returned res.ProductGroups none) ∧
    (∀ (Decode : Decoder (Option (GetProductUnitsResponse R))) (res : GetProductUnitsResponse R),
        cli.SendRequest "getProductUnits" filters = .ok resp →
        Decode resp.Body (some { Status := Status.zero, ProductUnits := [] }) = (some res, none) →
        env.IsJSONResponseOK res.Status = true →
        (products.GetProductUnits env cli Decode filters).outcome = Outcome.returned res.ProductUnits none) ∧
    (∀ (Decode : Decoder (GetProductsResponse R)) (res : GetProductsResponse R),
        cli.SendRequest "getProducts" filters = .ok resp →
        Decode resp.Body { Status := Status.zero, Products := [] } = (res, none) →
        env.IsJSONResponseOK res.Status = true →
        (products.GetProducts env cli Decode filters).outcome = Outcome.returned res.Products none) ∧
    (∀ (Decode : Decoder (getProductCategoriesResponse R)) (res : getProductCategoriesResponse R),
        cli.SendRequest "getProductCategories" filters = .ok resp →
        Decode resp.Body { Status := Status.zero, ProductCategories := [] } = (res, none) →
        env.IsJSONResponseOK res.Status = true →
        (products.GetProductCategories env cli Decode filters).outcome = Outcome.returned res.ProductCategories none) ∧
    (∀ (Decode : Decoder (getProductBrandsResponse R)) (res : getProductBrandsResponse R),
        cli.SendRequest "getProductBrands" filters = .ok resp →
        Decode resp.Body { Status := Status.zero, ProductBrands := [] } = (res, none) →
        env.IsJSONResponseOK res.Status = true →
        (products.GetProductBrands env cli Decode filters).outcome = Outcome.returned res.ProductBrands none) ∧
    (∀ (Decode : Decoder (getProductBrandsResponse R)) (res : getProductBrandsResponse R),
        cli.SendRequest "getBrands" filters = .ok resp →
        Decode resp.Body { Status := Status.zero, ProductBrands := [] } = (res, none) →
        env.IsJSONResponseOK res.Status = true →
        (products.GetBrands env cli Decode filters).outcome = Outcome.returned res.ProductBrands none) ∧
    (∀ (Decode : Decoder (getProductGroupsResponse R)) (res : getProductGroupsResponse R),
        cli.SendRequest "getProductGroups" filters = .ok resp →
        Decode resp.Body { Status := Status.zero, ProductGroups := [] } = (res, none) →
        env.IsJSONResponseOK res.Status = true →
        (products.GetProductGroups env cli Decode filters).outcome = Outcome.returned res.ProductGroups none) ∧
    (∀ (Decode : Decoder (GetProductStockResponse R)) (res : GetProductStockResponse R),
        cli.SendRequest "getProductStock" filters = .ok resp →
        Decode resp.Body { Status := Status.zero, GetProductStock := [] } = (res, none) →
        env.IsJSONResponseOK res.Status = true →
        (products.GetProductStock env cli Decode filters).outcome = Outcome.returned res.GetProductStock none) := by
  refine ⟨?_, ?_, ?_, ?_, ?_, ?_, ?_, ?_, ?_, ?_, ?_, ?_, ?_⟩ <;>
    intro Decode res hsend hdec hok <;>
    simp [addresses.GetAddresses, addresses.GetAddresses.body, Prog.run, Client.answer, productGo.GetProductUnits, productGo.GetProductUnits.body,
      productGo.GetProducts, productGo.GetProducts.body, productGo.GetProductCategories, productGo.GetProductCategories.body, productGo.GetProductBrands, productGo.GetProductBrands.body,
      productGo.GetProductGroups, productGo.GetProductGroups.body, products.GetProductUnits, products.GetProductUnits.body, products.GetProducts, products.GetProducts.body,
      products.GetProductCategories, products.GetProductCategories.body, products.GetProductBrands, products.GetProductBrands.body, products.GetBrands, products.GetBrands.body,
      products.GetProductGroups, products.GetProductGroups.body, products.GetProductStock, products.GetProductStock.body, hsend, hdec, hok]

/-- Witness of C7: `GetAddresses` on an OK response with the records 3, 1, 2. -/
theorem single_ok_status_returns_records_witness :
    (addresses.GetAddresses sampleEnv (sampleClient "response")
      (streamDecodesTo (some { Status := okStatus "getAddresses", Addresses := [3, 1, 2] }))
      none).outcome = Outcome.returned [3, 1, 2] none :=
  (single_ok_status_returns_records sampleEnv (sampleClient "response") none
    { Body := .ok "response" }).1
    (streamDecodesTo (some { Status := okStatus "getAddresses", Addresses := [3, 1, 2] }))
    { Status := okStatus "getAddresses", Addresses := [3, 1, 2] } rfl rfl rfl

/-! ## A response body that fails to decode -/

/-- C9: for every bulk method and every single-call method of
addressRequests.go, product.go and requests.go, when the response body fails
to decode the method returns (it does not panic) with a non-nil error that
wraps the parse error: the `fmt.Errorf` error for a bulk method,
`NewFromError(message, parseError)` for a single-call method. The statuses
left in the destination are not read. -/
theorem decode_failure_returns_error {F X R : Type} (env : Env) (cli : Client F)
    (filters : Filters) (resp : HttpResponse) (text : String) :
    (∀ (meth : BulkMethod) (Unmarshal : Unmarshaler (ResponseBulk X R)) (bulkFilters : List F)
        (baseFilters : Filters) (body : String) (left : ResponseBulk X R),
        meth.Answers env cli bulkFilters baseFilters body →
        Unmarshal body ResponseBulk.zero = (left, some text) →
        ∃ message, (meth.run env cli Unmarshal bulkFilters baseFilters).outcome =
          Outcome.returned left (some (GoError.Errorf message))) ∧
    (∀ (Decode : Decoder (Option (AddressResponse R))) (left : Option (AddressResponse R)),
        cli.SendRequest "getAddresses" filters = .ok resp →
        Decode resp.Body (some { Status := Status.zero, Addresses := [] }) = (left, some text) →
        (addresses.GetAddresses env cli Decode filters).outcome =
          Outcome.returned []
            (some (GoError.FromError "unmarshaling GetAddressesResponse failed" (GoError.external text)))) ∧
    (∀ (Decode : Decoder (Option (AddressResponse R))) (left : Option (AddressResponse R)),
        cli.SendRequest "saveAddress" filters = .ok resp →
        Decode resp.Body (some { Status := Status.zero, Addresses := [] }) = (left, some text) →
        (addresses.SaveAddress env cli Decode filters).outcome =
          Outcome.returned []
            (some (GoError.FromError "saveAddress: JSON unmarshal failed" (GoError.external text)))) ∧
    (∀ (Decode : Decoder (Option (GetProductUnitsResponse R))) (left : Option (GetProductUnitsResponse R)),
        cli.SendRequest "getProductUnits" filters = .ok resp →
        Decode resp.Body (some { Status := Status.zero, ProductUnits := [] }) = (left, some text) →
        (productGo.GetProductUnits env cli Decode filters).outcome =
          Outcome.returned []
            (some (GoError.FromError "unmarshaling GetProductUnitsResponse failed" (GoError.external text)))) ∧
    (∀ (Decode : Decoder (GetProductsResponse R)) (left : GetProductsResponse R),
        cli.SendRequest "getProducts" filters = .ok resp →
        Decode resp.Body { Status := Status.zero, Products := [] } = (left, some text) →
        (productGo.GetProducts env cli Decode filters).outcome =
          Outcome.returned []
            (some (GoError.FromError "failed to unmarshal GetProductsResponse" (GoError.external text)))) ∧
    (∀ (Decode : Decoder (getProductCategoriesResponse R)) (left : getProductCategoriesResponse R),
        cli.SendRequest "getProductCategories" filters = .ok resp →
        Decode resp.Body { Status := Status.zero, ProductCategories := [] } = (left, some text) →
        (productGo.GetProductCategories env cli Decode filters).outcome =
          Outcome.returned []
            (some (GoError.FromError "failed to unmarshal getProductCategoriesResponse" (GoError.external text)))) ∧
    (∀ (Decode : Decoder (getProductBrandsResponse R)) (left : getProductBrandsResponse R),
        cli.SendRequest "getProductBrands" filters = .ok resp →
        Decode resp.Body { Status := Status.zero, ProductBrands := [] } = (left, some text) →
        (productGo.GetProductBrands env cli Decode filters).outcome =
          Outcome.returned []
            (some (GoError.FromError "failed to unmarshal getProductBrandsResponse" (GoError.external text)))) ∧
    (∀ (Decode : Decoder (getProductGroupsResponse R)) (left : getProductGroupsResponse R),
        cli.SendRequest "getProductGroups" filters = .ok resp →
        Decode resp.Body { Status := Status.zero, ProductGroups := [] } = (left, some text) →
        (productGo.GetProductGroups env cli Decode filters).outcome =
          Outcome.returned []
            (some (GoError.FromError "failed to unmarshal getProductGroupsResponse" (GoError.external text)))) ∧
    (∀ (Decode : Decoder (Option (GetProductUnitsResponse R))) (left : Option (GetProductUnitsResponse R)),
        cli.SendRequest "getProductUnits" filters = .ok resp →
        Decode resp.Body (some { Status := Status.zero, ProductUnits := [] }) = (left, some text) →
        (products.GetProductUnits env cli Decode filters).outcome =
          Outcome.returned []
            (some (GoError.FromError "unmarshaling GetProductUnitsResponse failed" (GoError.external text)))) ∧
    (∀ (Decode : Decoder (GetProductsResponse R)) (left : GetProductsResponse R),
        cli.SendRequest "getProducts" filters = .ok resp →
        Decode resp.Body { Status := Status.zero, Products := [] } = (left, some text) →
        (products.GetProducts env cli Decode filters).outcome =
          Outcome.returned []
            (some (GoError.FromError "failed to unmarshal GetProductsResponse" (GoError.external text)))) ∧
    (∀ (Decode : Decoder (getProductCategoriesResponse R)) (left : getProductCategoriesResponse R),
        cli.SendRequest "getProductCategories" filters = .ok resp →
        Decode resp.Body { Status := Status.zero, ProductCategories := [] } = (left, some text) →
        (products.GetProductCategories env cli Decode filters).outcome =
          Outcome.returned []
            (some (GoError.FromError "failed to unmarshal getProductCategoriesResponse" (GoError.external text)))) ∧
    (∀ (Decode : Decoder (getProductBrandsResponse R)) (left : getProductBrandsResponse R),
        cli.SendRequest "getProductBrands" filters = .ok resp →
        Decode resp.Body { Status := Status.zero, ProductBrands := [] } = (left, some text) →
        (products.GetProductBrands env cli Decode filters).outcome =
          Outcome.returned []
            (some (GoError.FromError "failed to unmarshal getProductBrandsResponse" (GoError.external text)))) ∧
    (∀ (Decode : Decoder (getProductBrandsResponse R)) (left : getProductBrandsResponse R),
        cli.SendRequest "getBrands" filters = .ok resp →
        Decode resp.Body { Status := Status.zero, ProductBrands := [] } = (left, some text) →
        (products.GetBrands env cli Decode filters).outcome =
          Outcome.returned []
            (some (GoError.FromError "failed to unmarshal getBrandsResponse" (GoError.external text)))) ∧
    (∀ (Decode : Decoder (getProductGroupsResponse R)) (left : getProductGroupsResponse R),
        cli.SendRequest "getProductGroups" filters = .ok resp →
        Decode resp.Body { Status := Status.zero, ProductGroups := [] } = (left, some text) →
        (products.GetProductGroups env cli Decode filters).outcome =
          Outcome.returned []
            (some (GoError.FromError "failed to unmarshal getProductGroupsResponse" (GoError.external text)))) ∧
    (∀ (Decode : Decoder (GetProductStockResponse R)) (left : GetProductStockResponse R),
        cli.SendRequest "getProductStock" filters = .ok resp →
        Decode resp.Body { Status := Status.zero, GetProductStock := [] } = (left, some text) →
        (products.GetProductStock env cli Decode filters).outcome =
          Outcome.returned []
            (some (GoError.FromError "failed to unmarshal GetProductStockResponse" (GoError.external text)))) ∧
    (∀ (Decode : Decoder (SaveProductResponse R)) (left : SaveProductResponse R) (zero : R),
        cli.SendRequest "saveProduct" filters = .ok resp →
        Decode resp.Body { Status := Status.zero, SaveProductResults := [] } = (left, some text) →
        (products.SaveProduct env cli Decode zero filters).outcome =
          Outcome.returned zero
            (some (GoError.FromError "failed to unmarshal SaveProductResult" (GoError.external text)))) ∧
    (∀ (Decode : Decoder DeleteProductResponse) (left : DeleteProductResponse),
        cli.SendRequest "deleteProduct" filters = .ok resp →
        Decode resp.Body { Status := Status.zero } = (left, some text) →
        (products.DeleteProduct env cli Decode filters).outcome =
          Outcome.returned ()
            (some (GoError.FromError "failed to unmarshal DeleteProductResponse" (GoError.external text)))) ∧
    (∀ (Decode : Decoder (GetProductStockFileResponse R)) (left : GetProductStockFileResponse R)
        (m : String → Option String),
        cli.SendRequest "getProductStock" (some (mapSet m "responseType" env.ResponseTypeCSV)) =
          .ok resp →
        Decode resp.Body { Status := Status.zero, GetProductStockFile := [] } = (left, some text) →
        (products.GetProductStockFile env cli Decode (some m)).outcome =
          Outcome.returned ([] : List R)
            (some (GoError.FromError "failed to unmarshal GetProductStockFileResponse"
              (GoError.external text)))) := by
  refine ⟨?_, ?_, ?_, ?_, ?_, ?_, ?_, ?_, ?_, ?_, ?_, ?_, ?_, ?_, ?_, ?_, ?_, ?_⟩
  · intro meth Unmarshal bulkFilters baseFilters body left hans hfail
    rw [BulkMethod.outcome_of_answers meth env cli Unmarshal bulkFilters baseFilters body hans,
      hfail]
    exact ⟨_, rfl⟩
  all_goals
    intros
    simp_all [addresses.GetAddresses, addresses.GetAddresses.body, Prog.run, Client.answer, addresses.SaveAddress, addresses.SaveAddress.body, productGo.GetProductUnits, productGo.GetProductUnits.body,
      productGo.GetProducts, productGo.GetProducts.body, productGo.GetProductCategories, productGo.GetProductCategories.body, productGo.GetProductBrands, productGo.GetProductBrands.body,
      productGo.GetProductGroups, productGo.GetProductGroups.body, products.GetProductUnits, products.GetProductUnits.body, products.GetProducts, products.GetProducts.body,
      products.GetProductCategories, products.GetProductCategories.body, products.GetProductBrands, products.GetProductBrands.body, products.GetBrands, products.GetBrands.body,
      products.GetProductGroups, products.GetProductGroups.body, products.GetProductStock, products.GetProductStock.body, products.SaveProduct, products.SaveProduct.body,
      products.DeleteProduct, products.DeleteProduct.body, products.GetProductStockFile, products.GetProductStockFile.body, NewFromError]

/-- Witness of C9: `GetProducts` of requests.go on a body whose decode fails
with `unexpected EOF`. -/
theorem decode_failure_returns_error_witness :
    (products.GetProducts sampleEnv (sampleClient "not json")
      (streamDecodeFails "unexpected EOF") none :
        Run Unit (List Nat)).outcome =
      Outcome.returned []
        (some (GoError.FromError "failed to unmarshal GetProductsResponse"
          (GoError.external "unexpected EOF"))) :=
  (decode_failure_returns_error (X := Unit) sampleEnv (sampleClient "not json") none
    { Body := .ok "not json" } "unexpected EOF").2.2.2.2.2.2.2.2.2.1
    (streamDecodeFails "unexpected EOF") { Status := Status.zero, Products := [] } rfl rfl

/-! ## Save calls: an OK status without records -/

/-- C5, evaluated: on a response with an OK status and zero records,
`SaveProduct` returns the zero value of its result with a nil error, while
`SaveAddress` on such a response returns nil records with the error
`NewFromError("saveAddress: no records in response", nil)`. -/
theorem save_product_without_records_is_success :
    (products.SaveProduct sampleEnv (sampleClient "response")
        (streamDecodesTo { Status := okStatus "saveProduct", SaveProductResults := [] })
        (0 : Nat) none).outcome = Outcome.returned 0 none ∧
      (addresses.SaveAddress sampleEnv (sampleClient "response")
        (streamDecodesTo (some { Status := okStatus "saveAddress", Addresses := ([] : List Nat) }))
        none).outcome =
          Outcome.returned []
            (some (GoError.FromNilError "saveAddress: no records in response")) := by
  constructor <;> rfl

/-! ## Lemmas on the transport calls -/

theorem BulkMethod.calls_of_sent {F X R : Type} (meth : BulkMethod) (env : Env)
    (cli : Client F) (Unmarshal : Unmarshaler (ResponseBulk X R)) (bulkFilters : List F)
    (baseFilters sent : Filters) (hsent : meth.sent env baseFilters = some sent) :
    (meth.run env cli Unmarshal bulkFilters baseFilters).calls =
      [Call.SendRequestBulk (meth.inputs bulkFilters) sent] := by
  cases meth
  case GetProductStockFileBulk =>
    cases baseFilters with
    | none => simp [BulkMethod.sent] at hsent
    | some m =>
      simp only [BulkMethod.sent, Option.some.injEq] at hsent
      subst hsent
      simp [BulkMethod.run, products.GetProductStockFileBulk, products.GetProductStockFileBulk.body, Prog.run, Client.answer, foldl_append_singleton_eq_map,
        BulkMethod.inputs, BulkMethod.verb]
  all_goals
    simp only [BulkMethod.sent, Option.some.injEq] at hsent
    subst hsent
    simp [BulkMethod.run, products.GetProductsBulk, products.GetProductsBulk.body, Prog.run, Client.answer, products.SaveProductBulk, products.SaveProductBulk.body,
      products.DeleteProductBulk, products.DeleteProductBulk.body, foldl_append_singleton_eq_map, BulkMethod.inputs,
      BulkMethod.verb]

theorem BulkMethod.outcome_congr {F X R : Type} (meth : BulkMethod) (env : Env)
    (cli cli2 : Client F) (Unmarshal : Unmarshaler (ResponseBulk X R)) (bulkFilters : List F)
    (baseFilters sent : Filters) (hsent : meth.sent env baseFilters = some sent)
    (h : cli.SendRequestBulk (meth.inputs bulkFilters) sent =
      cli2.SendRequestBulk (meth.inputs bulkFilters) sent) :
    (meth.run env cli Unmarshal bulkFilters baseFilters).outcome =
      (meth.run env cli2 Unmarshal bulkFilters baseFilters).outcome := by
  cases meth
  case GetProductStockFileBulk =>
    cases baseFilters with
    | none => simp [BulkMethod.sent] at hsent
    | some m =>
      simp only [BulkMethod.sent, Option.some.injEq] at hsent
      subst hsent
      simp only [BulkMethod.inputs, BulkMethod.verb] at h
      simp only [BulkMethod.run, products.GetProductStockFileBulk, products.GetProductStockFileBulk.body, Prog.run, Client.answer, foldl_append_singleton_eq_map,
        List.nil_append, h]
  all_goals
    simp only [BulkMethod.sent, Option.some.injEq] at hsent
    subst hsent
    simp only [BulkMethod.inputs, BulkMethod.verb] at h
    simp only [BulkMethod.run, products.GetProductsBulk, products.GetProductsBulk.body, Prog.run, Client.answer, products.SaveProductBulk, products.SaveProductBulk.body,
      products.DeleteProductBulk, products.DeleteProductBulk.body, foldl_append_singleton_eq_map, List.nil_append, h]

theorem BulkMethod.outcome_of_transport_error {F X R : Type} (meth : BulkMethod) (env : Env)
    (cli : Client F) (Unmarshal : Unmarshaler (ResponseBulk X R)) (bulkFilters : List F)
    (baseFilters sent : Filters) (cause : GoError)
    (hsent : meth.sent env baseFilters = some sent)
    (h : cli.SendRequestBulk (meth.inputs bulkFilters) sent = .error cause) :
    (meth.run env cli Unmarshal bulkFilters baseFilters).outcome =
      Outcome.returned ResponseBulk.zero (some cause) := by
  cases meth
  case GetProductStockFileBulk =>
    cases baseFilters with
    | none => simp [BulkMethod.sent] at hsent
    | some m =>
      simp only [BulkMethod.sent, Option.some.injEq] at hsent
      subst hsent
      simp only [BulkMethod.inputs, BulkMethod.verb] at h
      simp only [BulkMethod.run, products.GetProductStockFileBulk, products.GetProductStockFileBulk.body, Prog.run, Client.answer, foldl_append_singleton_eq_map,
        List.nil_append, h]
  all_goals
    simp only [BulkMethod.sent, Option.some.injEq] at hsent
    subst hsent
    simp only [BulkMethod.inputs, BulkMethod.verb] at h
    simp only [BulkMethod.run, products.GetProductsBulk, products.GetProductsBulk.body, Prog.run, Client.answer, products.SaveProductBulk, products.SaveProductBulk.body,
      products.DeleteProductBulk, products.DeleteProductBulk.body, foldl_append_singleton_eq_map, List.nil_append, h]

theorem BulkMethod.calls_of_not_sent {F X R : Type} (meth : BulkMethod) (env : Env)
    (cli : Client F) (Unmarshal : Unmarshaler (ResponseBulk X R)) (bulkFilters : List F)
    (baseFilters : Filters) (hsent : meth.sent env baseFilters = none) :
    (meth.run env cli Unmarshal bulkFilters baseFilters).calls = [] ∧
      (meth.run env cli Unmarshal bulkFilters baseFilters).outcome = Outcome.panicked := by
  cases meth <;> cases baseFilters <;> simp [BulkMethod.sent] at hsent
  exact ⟨rfl, rfl⟩

theorem mapSet_same (m : String → Option String) (key value : String) :
    mapSet m key value key = some value := by
  simp [mapSet]

theorem mapSet_other (m : String → Option String) (key value k : String) (h : k ≠ key) :
    mapSet m key value k = m k := by
  simp [mapSet, h]

/-! ## One transport call per invocation -/

/-- C11, as stated, fails: called with a nil filter map, `GetProductStockFile`
and `GetProductStockFileBulk` make no transport call at all. -/
theorem stock_file_nil_map_makes_no_call_counterexample :
    (products.GetProductStockFile sampleEnv (sampleClient "response")
        (streamDecodesTo { Status := okStatus "getProductStock", GetProductStockFile := [7] })
        none).calls.length = 0 ∧
      (BulkMethod.GetProductStockFileBulk.run sampleEnv (sampleClient "response")
        (decodesTo fullEnvelope) [(), ()] none).calls.length = 0 := by
  constructor <;> rfl

/-- C11, amended: for every single-call and bulk method and every input other
than a nil filter map handed to `GetProductStockFile` or
`GetProductStockFileBulk`, one invocation performs exactly one transport
call: a bulk method with any number of per-item filter maps makes the single
call `SendRequestBulk(inputs, filters)` and no `SendRequest`, a single-call
method makes the single call `SendRequest(verb, filters)`; the log of the
calls made while the body runs holds that one call whatever the transport
answers and whatever the decode gives (no second call after a failure), and
the outcome depends on the transport through the answer to that one call
alone. -/
theorem one_transport_call_per_invocation {F X R : Type} (env : Env) (filters : Filters) :
    (∀ (meth : BulkMethod) (Unmarshal : Unmarshaler (ResponseBulk X R)) (bulkFilters : List F)
        (baseFilters sent : Filters), meth.sent env baseFilters = some sent →
        PerformsExactly (fun cli => meth.run env cli Unmarshal bulkFilters baseFilters)
          (Call.SendRequestBulk (meth.inputs bulkFilters) sent)) ∧
    (∀ (Decode : Decoder (Option (AddressResponse R))),
        PerformsExactly (fun cli : Client F => addresses.GetAddresses env cli Decode filters)
          (Call.SendRequest "getAddresses" filters)) ∧
    (∀ (Decode : Decoder (Option (AddressResponse R))),
        PerformsExactly (fun cli : Client F => addresses.SaveAddress env cli Decode filters)
          (Call.SendRequest "saveAddress" filters)) ∧
    (∀ (Decode : Decoder (Option (GetProductUnitsResponse R))),
        PerformsExactly (fun cli : Client F => productGo.GetProductUnits env cli Decode filters)
          (Call.SendRequest "getProductUnits" filters)) ∧
    (∀ (Decode : Decoder (GetProductsResponse R)),
        PerformsExactly (fun cli : Client F => productGo.GetProducts env cli Decode filters)
          (Call.SendRequest "getProducts" filters)) ∧
    (∀ (Decode : Decoder (getProductCategoriesResponse R)),
        PerformsExactly (fun cli : Client F => productGo.GetProductCategories env cli Decode filters)
          (Call.SendRequest "getProductCategories" filters)) ∧
    (∀ (Decode : Decoder (getProductBrandsResponse R)),
        PerformsExactly (fun cli : Client F => productGo.GetProductBrands env cli Decode filters)
          (Call.SendRequest "getProductBrands" filters)) ∧
    (∀ (Decode : Decoder (getProductGroupsResponse R)),
        PerformsExactly (fun cli : Client F => productGo.GetProductGroups env cli Decode filters)
          (Call.SendRequest "getProductGroups" filters)) ∧
    (∀ (Decode : Decoder (Option (GetProductUnitsResponse R))),
        PerformsExactly (fun cli : Client F => products.GetProductUnits env cli Decode filters)
          (Call.SendRequest "getProductUnits" filters)) ∧
    (∀ (Decode : Decoder (GetProductsResponse R)),
        PerformsExactly (fun cli : Client F => products.GetProducts env cli Decode filters)
          (Call.SendRequest "getProducts" filters)) ∧
    (∀ (Decode : Decoder (getProductCategoriesResponse R)),
        PerformsExactly (fun cli : Client F => products.GetProductCategories env cli Decode filters)
          (Call.SendRequest "getProductCategories" filters)) ∧
    (∀ (Decode : Decoder (getProductBrandsResponse R)),
        PerformsExactly (fun cli : Client F => products.GetProductBrands env cli Decode filters)
          (Call.SendRequest "getProductBrands" filters)) ∧
    (∀ (Decode : Decoder (getProductBrandsResponse R)),
        PerformsExactly (fun cli : Client F => products.GetBrands env cli Decode filters)
          (Call.SendRequest "getBrands" filters)) ∧
    (∀ (Decode : Decoder (getProductGroupsResponse R)),
        PerformsExactly (fun cli : Client F => products.GetProductGroups env cli Decode filters)
          (Call.SendRequest "getProductGroups" filters)) ∧
    (∀ (Decode : Decoder (GetProductStockResponse R)),
        PerformsExactly (fun cli : Client F => products.GetProductStock env cli Decode filters)
          (Call.SendRequest "getProductStock" filters)) ∧
    (∀ (Decode : Decoder (SaveProductResponse R)) (zero : R),
        PerformsExactly (fun cli : Client F => products.SaveProduct env cli Decode zero filters)
          (Call.SendRequest "saveProduct" filters)) ∧
    (∀ (Decode : Decoder DeleteProductResponse),
        PerformsExactly (fun cli : Client F => products.DeleteProduct env cli Decode filters)
          (Call.SendRequest "deleteProduct" filters)) ∧
    (∀ (Decode : Decoder (GetProductStockFileResponse R)) (m : String → Option String),
        PerformsExactly
          (fun cli : Client F => products.GetProductStockFile (R := R) env cli Decode (some m))
          (Call.SendRequest "getProductStock"
            (some (mapSet m "responseType" env.ResponseTypeCSV)))) := by
  refine ⟨?_, ?_, ?_, ?_, ?_, ?_, ?_, ?_, ?_, ?_, ?_, ?_, ?_, ?_, ?_, ?_, ?_, ?_⟩
  · intro meth Unmarshal bulkFilters baseFilters sent hsent
    exact ⟨fun cli => BulkMethod.calls_of_sent meth env cli Unmarshal bulkFilters baseFilters
        sent hsent,
      fun cli cli2 h => BulkMethod.outcome_congr meth env cli cli2 Unmarshal bulkFilters
        baseFilters sent hsent h⟩
  all_goals
    intros
    refine ⟨fun cli => rfl, fun cli cli2 h => ?_⟩
    simp only [Client.answer] at h
    simp only [addresses.GetAddresses, addresses.GetAddresses.body, Prog.run, Client.answer, addresses.SaveAddress, addresses.SaveAddress.body, productGo.GetProductUnits, productGo.GetProductUnits.body,
      productGo.GetProducts, productGo.GetProducts.body, productGo.GetProductCategories, productGo.GetProductCategories.body, productGo.GetProductBrands, productGo.GetProductBrands.body,
      productGo.GetProductGroups, productGo.GetProductGroups.body, products.GetProductUnits, products.GetProductUnits.body, products.GetProducts, products.GetProducts.body,
      products.GetProductCategories, products.GetProductCategories.body, products.GetProductBrands, products.GetProductBrands.body, products.GetBrands, products.GetBrands.body,
      products.GetProductGroups, products.GetProductGroups.body, products.GetProductStock, products.GetProductStock.body, products.SaveProduct, products.SaveProduct.body,
      products.DeleteProduct, products.DeleteProduct.body, products.GetProductStockFile, products.GetProductStockFile.body, h]

/-- Witness of the amended C11: `SaveProductBulk` with no filter map at all
makes the one call `SendRequestBulk([], nil)`, on a transport that fails as
on one that answers. -/
theorem one_transport_call_per_invocation_witness :
    (BulkMethod.SaveProductBulk.run sampleEnv (failingClient (GoError.external "timeout"))
        (decodesTo fullEnvelope) [] none).calls = [Call.SendRequestBulk [] none] ∧
      (BulkMethod.SaveProductBulk.run sampleEnv (sampleClient "response")
        (decodesTo fullEnvelope) [] none).calls = [Call.SendRequestBulk [] none] :=
  ⟨((one_transport_call_per_invocation (F := Unit) (X := Unit) (R := Nat) sampleEnv
      none).1 BulkMethod.SaveProductBulk (decodesTo fullEnvelope) [] none none rfl).1
      (failingClient (GoError.external "timeout")),
    ((one_transport_call_per_invocation (F := Unit) (X := Unit) (R := Nat) sampleEnv
      none).1 BulkMethod.SaveProductBulk (decodesTo fullEnvelope) [] none none rfl).1
      (sampleClient "response")⟩

/-! ## A transport call that fails -/

/-- C12: for every single-call and bulk method, when the transport call fails
with the error `cause` the method returns at once, whatever the decoder is,
with a nil or zero-valued result (nil records, the zero envelope, the zero
`SaveProductResult`) and a non-nil error that carries `cause`:
`NewFromError(message, cause)` in `GetAddresses`, `SaveAddress` and
`GetProductUnits`, `cause` itself in the other methods. -/
theorem transport_failure_surfaces_cause {F X R : Type} (env : Env) (cli : Client F)
    (filters : Filters) (cause : GoError) :
    (∀ (meth : BulkMethod) (Unmarshal : Unmarshaler (ResponseBulk X R)) (bulkFilters : List F)
        (baseFilters sent : Filters), meth.sent env baseFilters = some sent →
        cli.SendRequestBulk (meth.inputs bulkFilters) sent = .error cause →
        (meth.run env cli Unmarshal bulkFilters baseFilters).outcome =
          Outcome.returned ResponseBulk.zero (some cause)) ∧
    (∀ (Decode : Decoder (Option (AddressResponse R))),
        cli.SendRequest "getAddresses" filters = .error cause →
        (addresses.GetAddresses env cli Decode filters).outcome = Outcome.returned [] (some (GoError.FromError "GetAddresses request failed" cause))) ∧
    (∀ (Decode : Decoder (Option (AddressResponse R))),
        cli.SendRequest "saveAddress" filters = .error cause →
        (addresses.SaveAddress env cli Decode filters).outcome = Outcome.returned [] (some (GoError.FromError "saveAddress: request failed" cause))) ∧
    (∀ (Decode : Decoder (Option (GetProductUnitsResponse R))),
        cli.SendRequest "getProductUnits" filters = .error cause →
        (productGo.GetProductUnits env cli Decode filters).outcome = Outcome.returned [] (some (GoError.FromError "GetProductUnits request failed" cause))) ∧
    (∀ (Decode : Decoder (GetProductsResponse R)),
        cli.SendRequest "getProducts" filters = .error cause →
        (productGo.GetProducts env cli Decode filters).outcome = Outcome.returned [] (some cause)) ∧
    (∀ (Decode : Decoder (getProductCategoriesResponse R)),
        cli.SendRequest "getProductCategories" filters = .error cause →
        (productGo.GetProductCategories env cli Decode filters).outcome = Outcome.returned [] (some cause)) ∧
    (∀ (Decode : Decoder (getProductBrandsResponse R)),
        cli.SendRequest "getProductBrands" filters = .error cause →
        (productGo.GetProductBrands env cli Decode filters).outcome = Outcome.returned [] (some cause)) ∧
    (∀ (Decode : Decoder (getProductGroupsResponse R)),
        cli.SendRequest "getProductGroups" filters = .error cause →
        (productGo.GetProductGroups env cli Decode filters).outcome = Outcome.returned [] (some cause)) ∧
    (∀ (Decode : Decoder (Option (GetProductUnitsResponse R))),
        cli.SendRequest "getProductUnits" filters = .error cause →
        (products.GetProductUnits env cli Decode filters).outcome = Outcome.returned [] (some (GoError.FromError "GetProductUnits request failed" cause))) ∧
    (∀ (Decode : Decoder (GetProductsResponse R)),
        cli.SendRequest "getProducts" filters = .error cause →
        (products.GetProducts env cli Decode filters).outcome = Outcome.returned [] (some cause)) ∧
    (∀ (Decode : Decoder (getProductCategoriesResponse R)),
        cli.SendRequest "getProductCategories" filters = .error cause →
        (products.GetProductCategories env cli Decode filters).outcome = Outcome.returned [] (some cause)) ∧
    (∀ (Decode : Decoder (getProductBrandsResponse R)),
        cli.SendRequest "getProductBrands" filters = .error cause →
        (products.GetProductBrands env cli Decode filters).outcome = Outcome.returned [] (some cause)) ∧
    (∀ (Decode : Decoder (getProductBrandsResponse R)),
        cli.SendRequest "getBrands" filters = .error cause →
        (products.GetBrands env cli Decode filters).outcome = Outcome.returned [] (some cause)) ∧
    (∀ (Decode : Decoder (getProductGroupsResponse R)),
        cli.SendRequest "getProductGroups" filters = .error cause →
        (products.GetProductGroups env cli Decode filters).outcome = Outcome.returned [] (some cause)) ∧
    (∀ (Decode : Decoder (GetProductStockResponse R)),
        cli.SendRequest "getProductStock" filters = .error cause →
        (products.GetProductStock env cli Decode filters).outcome = Outcome.returned [] (some cause)) ∧
    (∀ (Decode : Decoder (SaveProductResponse R)) (zero : R),
        cli.SendRequest "saveProduct" filters = .error cause →
        (products.SaveProduct env cli Decode zero filters).outcome =
          Outcome.returned zero (some cause)) ∧
    (∀ (Decode : Decoder DeleteProductResponse),
        cli.SendRequest "deleteProduct" filters = .error cause →
        (products.DeleteProduct env cli Decode filters).outcome =
          Outcome.returned () (some cause)) ∧
    (∀ (Decode : Decoder (GetProductStockFileResponse R)) (m : String → Option String),
        cli.SendRequest "getProductStock" (some (mapSet m "responseType" env.ResponseTypeCSV)) =
          .error cause →
        (products.GetProductStockFile env cli Decode (some m)).outcome =
          Outcome.returned ([] : List R) (some cause)) := by
  refine ⟨?_, ?_, ?_, ?_, ?_, ?_, ?_, ?_, ?_, ?_, ?_, ?_, ?_, ?_, ?_, ?_, ?_, ?_⟩
  · intro meth Unmarshal bulkFilters baseFilters sent hsent h
    exact BulkMethod.outcome_of_transport_error meth env cli Unmarshal bulkFilters baseFilters
      sent cause hsent h
  all_goals
    intros
    simp_all [addresses.GetAddresses, addresses.GetAddresses.body, Prog.run, Client.answer, addresses.SaveAddress, addresses.SaveAddress.body, productGo.GetProductUnits, productGo.GetProductUnits.body,
      productGo.GetProducts, productGo.GetProducts.body, productGo.GetProductCategories, productGo.GetProductCategories.body, productGo.GetProductBrands, productGo.GetProductBrands.body,
      productGo.GetProductGroups, productGo.GetProductGroups.body, products.GetProductUnits, products.GetProductUnits.body, products.GetProducts, products.GetProducts.body,
      products.GetProductCategories, products.GetProductCategories.body, products.GetProductBrands, products.GetProductBrands.body, products.GetBrands, products.GetBrands.body,
      products.GetProductGroups, products.GetProductGroups.body, products.GetProductStock, products.GetProductStock.body, products.SaveProduct, products.SaveProduct.body,
      products.DeleteProduct, products.DeleteProduct.body, products.GetProductStockFile, products.GetProductStockFile.body, NewFromError]

/-- Witness of C12: `GetAddresses` on a transport that fails with `timeout`,
with a decoder that would have given records. -/
theorem transport_failure_surfaces_cause_witness :
    (addresses.GetAddresses sampleEnv (failingClient (GoError.external "timeout"))
      (streamDecodesTo (some { Status := okStatus "getAddresses", Addresses := [3, 1, 2] }))
      none).outcome =
        Outcome.returned []
          (some (GoError.FromError "GetAddresses request failed" (GoError.external "timeout"))) :=
  (transport_failure_surfaces_cause (X := Unit) sampleEnv
    (failingClient (GoError.external "timeout")) none (GoError.external "timeout")).2.1
    (streamDecodesTo (some { Status := okStatus "getAddresses", Addresses := [3, 1, 2] })) rfl

/-! ## The inputs of a bulk call -/

/-- C13: for every bulk method and every list `bulkFilters`, the input
sequence of a `SendRequestBulk` call the method makes has the length of
`bulkFilters`, and its element `i` has the method's verb as `MethodName` and
`bulkFilters[i]` as `Filters`; the verbs are `getProducts`, `saveProduct`,
`deleteProduct` and, for `GetProductStockFileBulk`, `getProductStock`. -/
theorem bulk_inputs_follow_filters {F X R : Type} (meth : BulkMethod) (env : Env)
    (cli : Client F) (Unmarshal : Unmarshaler (ResponseBulk X R)) (bulkFilters : List F)
    (baseFilters : Filters) (inputs : List (BulkInput F)) (sent : Filters)
    (hcall : Call.SendRequestBulk inputs sent ∈
      (meth.run env cli Unmarshal bulkFilters baseFilters).calls) :
    inputs.length = bulkFilters.length ∧
      (∀ (i : Nat) (bulkFilterMap : F), bulkFilters[i]? = some bulkFilterMap →
        inputs[i]? = some ({ MethodName := meth.verb, Filters := bulkFilterMap } : BulkInput F)) ∧
      BulkMethod.GetProductsBulk.verb = "getProducts" ∧
      BulkMethod.SaveProductBulk.verb = "saveProduct" ∧
      BulkMethod.DeleteProductBulk.verb = "deleteProduct" ∧
      BulkMethod.GetProductStockFileBulk.verb = "getProductStock" := by
  have hinputs : inputs = meth.inputs bulkFilters := by
    cases hsent : meth.sent env baseFilters with
    | none =>
      rw [(BulkMethod.calls_of_not_sent meth env cli Unmarshal bulkFilters baseFilters hsent).1]
        at hcall
      simp at hcall
    | some sent2 =>
      rw [BulkMethod.calls_of_sent meth env cli Unmarshal bulkFilters baseFilters sent2 hsent]
        at hcall
      simp only [List.mem_singleton, Call.SendRequestBulk.injEq] at hcall
      exact hcall.1
  subst hinputs
  refine ⟨by simp [BulkMethod.inputs], ?_, rfl, rfl, rfl, rfl⟩
  intro i bulkFilterMap hi
  simp [BulkMethod.inputs, List.getElem?_map, hi]

/-- Witness of C13: `GetProductStockFileBulk` with the filter maps `a`, `b`
hands over two inputs, and the one at index 1 carries the verb and `b`. -/
theorem bulk_inputs_follow_filters_witness :
    (BulkMethod.GetProductStockFileBulk.inputs ["a", "b"]).length = ["a", "b"].length ∧
      (BulkMethod.GetProductStockFileBulk.inputs ["a", "b"])[1]? =
        some ({ MethodName := BulkMethod.GetProductStockFileBulk.verb, Filters := "b" } :
          BulkInput String) :=
  have h := bulk_inputs_follow_filters BulkMethod.GetProductStockFileBulk sampleEnv
    (answeringClient "response") (decodesTo (ResponseBulk.zero : ResponseBulk Unit Nat))
    ["a", "b"] (some (singletonMap "warehouseID" "1"))
    (BulkMethod.GetProductStockFileBulk.inputs ["a", "b"])
    (some (mapSet (singletonMap "warehouseID" "1") "responseType" "CSV"))
    (List.mem_singleton.mpr rfl)
  ⟨h.1, h.2.1 1 "b" rfl⟩

/-! ## The filters handed to the transport -/

/-- C14: for every non-nil filter map `m`, `GetProductStockFile` (on
`filters`) and `GetProductStockFileBulk` (on `baseFilters`) send the verb
`getProductStock` with a map whose key `responseType` holds
`ResponseTypeCSV`, whatever `m` held there, and whose other keys are those of
`m`; `GetProductStock`, `GetProductsBulk`, `SaveProductBulk` and
`DeleteProductBulk` hand the caller's filter map to the transport as it is, and
the bulk methods hand over each per-item filter map as it is. -/
theorem filters_forwarded_to_transport {F X R : Type} (env : Env) (cli : Client F) :
    (∀ (Decode : Decoder (GetProductStockFileResponse R)) (m : String → Option String),
        ∃ sent : String → Option String,
          (products.GetProductStockFile env cli Decode (some m)).calls =
            [Call.SendRequest "getProductStock" (some sent)] ∧
          sent "responseType" = some env.ResponseTypeCSV ∧
          ∀ k, k ≠ "responseType" → sent k = m k) ∧
    (∀ (Unmarshal : Unmarshaler (ResponseBulk X R)) (bulkFilters : List F)
        (m : String → Option String),
        ∃ sent : String → Option String,
          (products.GetProductStockFileBulk env cli Unmarshal bulkFilters (some m)).calls =
            [Call.SendRequestBulk
              (bulkFilters.map fun bulkFilterMap =>
                { MethodName := "getProductStock", Filters := bulkFilterMap })
              (some sent)] ∧
          sent "responseType" = some env.ResponseTypeCSV ∧
          ∀ k, k ≠ "responseType" → sent k = m k) ∧
    (∀ (Decode : Decoder (GetProductStockResponse R)) (filters : Filters),
        (products.GetProductStock env cli Decode filters).calls =
          [Call.SendRequest "getProductStock" filters]) ∧
    (∀ (Unmarshal : Unmarshaler (ResponseBulk X R)) (bulkFilters : List F) (baseFilters : Filters),
        (products.GetProductsBulk env cli Unmarshal bulkFilters baseFilters).calls =
          [Call.SendRequestBulk
            (bulkFilters.map fun bulkFilterMap =>
              { MethodName := "getProducts", Filters := bulkFilterMap })
            baseFilters]) ∧
    (∀ (Unmarshal : Unmarshaler (ResponseBulk X R)) (bulkFilters : List F) (baseFilters : Filters),
        (products.SaveProductBulk env cli Unmarshal bulkFilters baseFilters).calls =
          [Call.SendRequestBulk
            (bulkFilters.map fun bulkFilterMap =>
              { MethodName := "saveProduct", Filters := bulkFilterMap })
            baseFilters]) ∧
    (∀ (Unmarshal : Unmarshaler (ResponseBulk X R)) (bulkFilters : List F) (baseFilters : Filters),
        (products.DeleteProductBulk env cli Unmarshal bulkFilters baseFilters).calls =
          [Call.SendRequestBulk
            (bulkFilters.map fun bulkFilterMap =>
              { MethodName := "deleteProduct", Filters := bulkFilterMap })
            baseFilters]) := by
  refine ⟨?_, ?_, ?_, ?_, ?_, ?_⟩
  · intro Decode m
    exact ⟨mapSet m "responseType" env.ResponseTypeCSV, rfl, mapSet_same _ _ _,
      fun k hk => mapSet_other _ _ _ k hk⟩
  · intro Unmarshal bulkFilters m
    refine ⟨mapSet m "responseType" env.ResponseTypeCSV, ?_, mapSet_same _ _ _,
      fun k hk => mapSet_other _ _ _ k hk⟩
    simp [products.GetProductStockFileBulk, products.GetProductStockFileBulk.body, Prog.run, Client.answer, foldl_append_singleton_eq_map]
  · intro Decode filters
    rfl
  all_goals
    intro Unmarshal bulkFilters baseFilters
    simp [products.GetProductsBulk, products.GetProductsBulk.body, Prog.run, Client.answer, products.SaveProductBulk, products.SaveProductBulk.body, products.DeleteProductBulk, products.DeleteProductBulk.body,
      foldl_append_singleton_eq_map]

/-- Witness of C14: `GetProductStockFile` with the map that holds
`responseType` = `JSON` sends a map that holds `responseType` = `CSV` and
nothing under `warehouseID`, as the caller's map. -/
theorem filters_forwarded_to_transport_witness :
    ∃ sent : String → Option String,
      (products.GetProductStockFile (R := Nat) sampleEnv (sampleClient "response")
        (streamDecodeFails "unexpected EOF") (some (singletonMap "responseType" "JSON"))).calls =
          [Call.SendRequest "getProductStock" (some sent)] ∧
      sent "responseType" = some "CSV" ∧
      sent "warehouseID" = singletonMap "responseType" "JSON" "warehouseID" :=
  match (filters_forwarded_to_transport (X := Unit) (R := Nat) sampleEnv
    (sampleClient "response")).1 (streamDecodeFails "unexpected EOF")
    (singletonMap "responseType" "JSON") with
  | ⟨sent, hcalls, hcsv, hother⟩ => ⟨sent, hcalls, hcsv, hother "warehouseID" (by decide)⟩

/-! ## The stock-file methods and a nil filter map -/

/-- C15: called with a nil filter map, `GetProductStockFile` and
`GetProductStockFileBulk` panic at the write of `responseType`, before any
transport call, and return nothing; called with a non-nil map the write
succeeds, the one transport call is made and the method returns. -/
theorem stock_file_methods_need_a_map {F X R : Type} (env : Env) (cli : Client F) :
    (∀ (Decode : Decoder (GetProductStockFileResponse R)),
        (products.GetProductStockFile env cli Decode none).calls = [] ∧
        (products.GetProductStockFile env cli Decode none).outcome = Outcome.panicked) ∧
    (∀ (Unmarshal : Unmarshaler (ResponseBulk X R)) (bulkFilters : List F),
        (products.GetProductStockFileBulk env cli Unmarshal bulkFilters none).calls = [] ∧
        (products.GetProductStockFileBulk env cli Unmarshal bulkFilters none).outcome =
          Outcome.panicked) ∧
    (∀ (Decode : Decoder (GetProductStockFileResponse R)) (m : String → Option String),
        (products.GetProductStockFile env cli Decode (some m)).calls =
          [Call.SendRequest "getProductStock"
            (some (mapSet m "responseType" env.ResponseTypeCSV))] ∧
        ∃ records err, (products.GetProductStockFile env cli Decode (some m)).outcome =
          Outcome.returned records err) ∧
    (∀ (Unmarshal : Unmarshaler (ResponseBulk X R)) (bulkFilters : List F)
        (m : String → Option String),
        (products.GetProductStockFileBulk env cli Unmarshal bulkFilters (some m)).calls =
          [Call.SendRequestBulk
            (bulkFilters.map fun bulkFilterMap =>
              { MethodName := "getProductStock", Filters := bulkFilterMap })
            (some (mapSet m "responseType" env.ResponseTypeCSV))] ∧
        ∃ envelope err,
          (products.GetProductStockFileBulk env cli Unmarshal bulkFilters (some m)).outcome =
            Outcome.returned envelope err) := by
  refine ⟨fun _ => ⟨rfl, rfl⟩, fun _ _ => ⟨rfl, rfl⟩, ?_, ?_⟩
  · intro Decode m
    refine ⟨rfl, ?_⟩
    simp only [products.GetProductStockFile, products.GetProductStockFile.body, Prog.run, Client.answer]
    repeat' split
    all_goals exact ⟨_, _, rfl⟩
  · intro Unmarshal bulkFilters m
    refine ⟨by simp [products.GetProductStockFileBulk, products.GetProductStockFileBulk.body, Prog.run, Client.answer, foldl_append_singleton_eq_map], ?_⟩
    simp only [products.GetProductStockFileBulk, products.GetProductStockFileBulk.body, Prog.run, Client.answer]
    repeat' split
    all_goals exact ⟨_, _, rfl⟩

end Erply
